import Mathlib

/-!
Formal model of the coverage-driven report-orchestration core of the
small-agent repository, together with theorems settling the frozen claims
about it.

The embedding follows the source files:
  * `big_agent/贾强/workflow_state.py` — the shared workflow state record and
    its transition helpers (`update_state_with_planning_decision`,
    `update_state_with_outline_generation`, `finalize_state_with_report`,
    `get_calculation_progress`, `convert_numpy_types`);
  * `big_agent/complete_agent_flow_rule.py` — the node functions
    (`_planning_node`, `_outline_generator_node`, `_metric_evaluator_node`,
    `_metric_calculator_node`, `_report_finalizer_node`) and the deterministic
    router `_route_from_planning`;
  * `big_agent/agents/planning_agent.py` — `analyze_current_state` and the
    deterministic fallback branch of `plan_next_action`;
  * `big_agent/agents/outline_agent.py` — the retry wrapper
    `generate_report_outline`;
  * `big_agent/other_agents/graph.py` — the variant router
    `route_from_planning` and `compile_final_report`;
  * `big_agent/other_agents/state.py` — the numpy-normalisation utility
    `convert_numpy_types` (explicit-branch variant).

External collaborators (the Decision Oracle LLM and the Knowledge Engine
HTTP service) are modelled as oracle inputs: each node that consults them is
parameterised by the outcome of the call, covering success, parse failure and
raised exceptions.  Python dicts with string keys are modelled as association
lists whose update replaces an existing key in place and appends a fresh key,
mirroring insertion-ordered dict semantics; Python float arithmetic on
coverage ratios is modelled exactly over ℚ.
-/

/-- Python dict write `d[k] = v`: replaces the binding in place when the key
is present, appends it otherwise (insertion-ordered dict semantics). -/
def dictSet {α : Type} (m : List (String × α)) (k : String) (v : α) : List (String × α) :=
  if (m.lookup k).isSome then
    m.map (fun p => if p.1 = k then (k, v) else p)
  else
    m ++ [(k, v)]

/-- Python `d.get(k, 0)` for the `failed_metric_attempts` counter dict. -/
def dictGetNat (m : List (String × Nat)) (k : String) : Nat :=
  (m.lookup k).getD 0

/-- MetricRequirement (workflow_state.py lines 33-39): one metric the report
needs, keyed by `metric_id`. -/
structure MetricRequirement where
  metric_id : String
  metric_name : String
  calculation_logic : String
  required_fields : List String
  dependencies : List String
  deriving Repr, DecidableEq

/-- ReportSection (workflow_state.py lines 42-47). -/
structure ReportSection where
  section_id : String
  title : String
  description : String
  metrics_needed : List String
  deriving Repr, DecidableEq

/-- ReportOutline (workflow_state.py lines 50-54). -/
structure ReportOutline where
  report_title : String
  sections : List ReportSection
  global_metrics : List MetricRequirement
  deriving Repr, DecidableEq

/-- One element of the `results` list returned by the rules engine for a
metric: `success` is the `result["success"]` flag the calculator node checks,
`value` stands for the optional `result["value"]` payload that the report
finalizer reads with `.get("value", "N/A")`. -/
structure EngineEntry where
  success : Bool
  value : Option String
  deriving Repr, DecidableEq

/-- Statistics dict written by the metric calculator node
(complete_agent_flow_rule.py lines 439-443). -/
structure CalcResults where
  total_configs : Nat
  successful_calculations : Nat
  failed_calculations : Nat
  deriving Repr, DecidableEq

/-- Value stored for one metric id in a section of the final report: either
the computed result dict or the literal missing-data sentinel string
(complete_agent_flow_rule.py lines 511-515). -/
inductive SectionMetricValue where
  | result (e : EngineEntry)
  | text (s : String)
  deriving Repr, DecidableEq

/-- The literal sentinel the report finalizer substitutes for a metric id
absent from `computed_metrics` (complete_agent_flow_rule.py line 515); the
spec renders this Chinese literal as "data missing". -/
def data_missing_sentinel : String := "数据缺失"

/-- Per-section content of the final report
(complete_agent_flow_rule.py lines 502-517). -/
structure SectionContent where
  section_id : String
  title : String
  description : String
  metrics : List (String × SectionMetricValue)
  deriving Repr, DecidableEq

/-- Per-metric detail entry of the final report
(complete_agent_flow_rule.py lines 520-528). -/
structure MetricDetail where
  name : String
  logic : String
  required_fields : List String
  computed : Bool
  value : String
  deriving Repr, DecidableEq

/-- The final report dict assembled by `_report_finalizer_node`
(complete_agent_flow_rule.py lines 487-528). -/
structure FinalReport where
  title : String
  total_sections : Nat
  total_metrics_required : Nat
  total_metrics_computed : Nat
  planning_steps : Nat
  completion_rate : ℚ
  sections : List SectionContent
  metrics_detail : List (String × MetricDetail)
  deriving Repr, DecidableEq

/-- IntegratedWorkflowState (workflow_state.py lines 80-131), restricted to
the fields the orchestration logic reads or writes.  Free-text audit fields
(`messages`, timestamps, `session_id`, the raw question and data set) are
omitted: no modelled transition branches on them. -/
structure WorkflowState where
  outline_draft : Option ReportOutline
  outline_version : Nat
  outline_ready : Bool
  metrics_requirements : List MetricRequirement
  computed_metrics : List (String × EngineEntry)
  pending_metric_ids : List String
  failed_metric_attempts : List (String × Nat)
  planning_step : Nat
  current_batch_metrics : List String
  calculation_results : Option CalcResults
  last_decision : String
  next_route : String
  plan_history : List String
  errors : List String
  report_draft : Option FinalReport
  is_complete : Bool
  completeness_score : ℚ
  deriving Repr, DecidableEq

/-- Fresh state fields as set by `create_initial_integrated_state`
(workflow_state.py lines 151-208). -/
def create_initial_integrated_state : WorkflowState :=
  { outline_draft := none
    outline_version := 0
    outline_ready := false
    metrics_requirements := []
    computed_metrics := []
    pending_metric_ids := []
    failed_metric_attempts := []
    planning_step := 0
    current_batch_metrics := []
    calculation_results := none
    last_decision := "init"
    next_route := "planning_node"
    plan_history := []
    errors := []
    report_draft := none
    is_complete := false
    completeness_score := 0 }

/-- Coverage rate as computed by `get_calculation_progress`
(workflow_state.py line 246): `computed / required if required > 0 else 0`. -/
def coverage_rate (required computed : Nat) : ℚ :=
  if required > 0 then (computed : ℚ) / (required : ℚ) else 0

/-- Targets of the conditional edges out of the planning node in
`complete_agent_flow_rule.py`; `endRoute` is the langgraph `END` sentinel. -/
inductive Route where
  | endRoute
  | outline_generator
  | metric_evaluator
  | metric_calculator
  | report_finalizer
  | planning_node
  deriving Repr, DecidableEq

/-- Deterministic router `_route_from_planning`
(complete_agent_flow_rule.py lines 112-158).  Note that the circuit-breaker
branch at line 127 returns the langgraph `END` sentinel, and that the
metric-calculator branch at line 148 compares coverage against 1.0. -/
def route_from_planning (s : WorkflowState) : Route :=
  if s.planning_step > 30 then
    .endRoute
  else if s.outline_draft.isNone then
    .outline_generator
  else if s.metrics_requirements = [] ∧ s.outline_draft.isSome then
    .metric_evaluator
  else
    let coverage := coverage_rate s.metrics_requirements.length s.computed_metrics.length
    if s.pending_metric_ids ≠ [] ∧ coverage < 1.0 then
      .metric_calculator
    else if s.pending_metric_ids = [] ∨ coverage ≥ 0.8 then
      .report_finalizer
    else
      .planning_node

/-- Variant router `route_from_planning` of `other_agents/graph.py`
(lines 54-99): its unconditional circuit breaker fires above step 50, a
secondary relaxation fires above step 30 when coverage exceeds 0.5, and the
calculator branch ignores the pending set. -/
def graph_route_from_planning (s : WorkflowState) : String :=
  if s.planning_step > 50 then
    "report_compiler"
  else if s.outline_draft.isNone then
    "outline_generator"
  else if s.metrics_requirements = [] then
    "outline_generator"
  else
    let coverage : ℚ :=
      coverage_rate s.metrics_requirements.length s.computed_metrics.length
    if s.planning_step > 30 ∧ coverage > 0.5 then
      "report_compiler"
    else if coverage < 0.8 then
      "metrics_calculator"
    else
      "report_compiler"

/-- PlanningDecision (planning_agent.py lines 52-72) restricted to the
fields downstream logic reads; the free-text `reasoning` and `next_actions`
fields are omitted. -/
structure PlanningDecision where
  decision : String
  metrics_to_compute : List String
  priority_metrics : List String
  deriving Repr, DecidableEq

/-- Retry cap constant `max_retry = 3` (planning_agent.py lines 301 and 348). -/
def max_retry : Nat := 3

/-- Status snapshot returned by `analyze_current_state`
(planning_agent.py lines 321-365). -/
structure StateAnalysis where
  has_outline : Bool
  required_count : Nat
  computed_count : Nat
  coverage : ℚ
  pending_metrics : List MetricRequirement
  valid_pending_metrics : List MetricRequirement
  pending_ids : List String
  valid_pending_ids : List String
  planning_step : Nat
  outline_version : Nat
  deriving Repr, DecidableEq

/-- Status builder `analyze_current_state` (planning_agent.py lines 321-365):
pending metrics are the requirements whose id is not a key of
`computed_metrics`; the valid pending subset further drops every metric whose
`failed_metric_attempts` count has reached `max_retry`. -/
def analyze_current_state (s : WorkflowState) : StateAnalysis :=
  let required_metrics := s.metrics_requirements
  let required_count := required_metrics.length
  let computed_count := s.computed_metrics.length
  let coverage := coverage_rate required_count computed_count
  let pending_metrics :=
    required_metrics.filter (fun m => (s.computed_metrics.lookup m.metric_id).isNone)
  let valid_pending_metrics :=
    pending_metrics.filter (fun m => dictGetNat s.failed_metric_attempts m.metric_id < max_retry)
  { has_outline := s.outline_draft.isSome
    required_count := required_count
    computed_count := computed_count
    coverage := coverage
    pending_metrics := pending_metrics
    valid_pending_metrics := valid_pending_metrics
    pending_ids := pending_metrics.map (fun m => m.metric_id)
    valid_pending_ids := valid_pending_metrics.map (fun m => m.metric_id)
    planning_step := s.planning_step
    outline_version := s.outline_version }

/-- Deterministic fallback decision built by the except branch of
`plan_next_action` (planning_agent.py lines 393-436). -/
def plan_fallback_decision (s : WorkflowState) : PlanningDecision :=
  let a := analyze_current_state s
  if ¬ a.has_outline then
    { decision := "generate_outline", metrics_to_compute := [], priority_metrics := [] }
  else if a.coverage < 0.8 ∧ a.valid_pending_metrics ≠ [] then
    let metrics_to_compute := a.valid_pending_ids.take 5
    { decision := "compute_metrics"
      metrics_to_compute := metrics_to_compute
      priority_metrics := metrics_to_compute.take 2 }
  else if a.valid_pending_ids ≠ [] then
    { decision := "finalize_report", metrics_to_compute := [], priority_metrics := [] }
  else
    { decision := "finalize_report", metrics_to_compute := [], priority_metrics := [] }

/-- Default decision substituted by `make_decision` when the oracle reply
cannot be parsed as JSON (planning_agent.py lines 237-246). -/
def default_parse_decision : PlanningDecision :=
  { decision := "generate_outline", metrics_to_compute := [], priority_metrics := [] }

/-- Outcome of one Decision Oracle call as observed by the planning agent:
a parsed decision, a reply that fails to parse, or a raised exception
(network error or timeout). -/
inductive OracleOutcome where
  | ok (d : PlanningDecision)
  | parse_failure
  | raised
  deriving Repr, DecidableEq

/-- Decision procedure `plan_next_action` (planning_agent.py lines 368-436):
a parse failure is replaced inside `make_decision` by the default decision;
a raised exception is caught and replaced by the deterministic state-based
fallback.  The function itself never raises. -/
def plan_next_action (o : OracleOutcome) (s : WorkflowState) : PlanningDecision :=
  match o with
  | .ok d => d
  | .parse_failure => default_parse_decision
  | .raised => plan_fallback_decision s

/-- Decision-to-route table `_decision_to_route`
(complete_agent_flow_rule.py lines 553-560). -/
def decision_to_route (decision : String) : String :=
  if decision = "generate_outline" then "outline_generator"
  else if decision = "compute_metrics" then "metric_calculator"
  else if decision = "finalize_report" then "report_finalizer"
  else "planning_node"

/-- Planning decision payload handed to `update_state_with_planning_decision`
by `_planning_node` (complete_agent_flow_rule.py lines 174-178). -/
structure PlanningUpdate where
  decision : String
  next_route : String
  metrics_to_compute : List String
  deriving Repr, DecidableEq

/-- State transition `update_state_with_planning_decision`
(workflow_state.py lines 279-304): increments `planning_step` by one and,
when the decision carries a non-empty `metrics_to_compute` batch, adopts that
batch verbatim as the new `pending_metric_ids`. -/
def update_state_with_planning_decision (s : WorkflowState) (d : PlanningUpdate) :
    WorkflowState :=
  { s with
    planning_step := s.planning_step + 1
    last_decision := d.decision
    next_route := d.next_route
    pending_metric_ids :=
      if d.metrics_to_compute ≠ [] then d.metrics_to_compute else s.pending_metric_ids
    plan_history :=
      s.plan_history ++
        ["Step " ++ toString (s.planning_step + 1) ++ ": " ++ d.decision] }

/-- Planning node `_planning_node` (complete_agent_flow_rule.py lines
160-195): obtains a decision from `plan_next_action` (which absorbs oracle
failures) and applies `update_state_with_planning_decision`. -/
def planning_node (o : OracleOutcome) (s : WorkflowState) : WorkflowState :=
  let decision := plan_next_action o s
  update_state_with_planning_decision s
    { decision := decision.decision
      next_route := decision_to_route decision.decision
      metrics_to_compute := decision.metrics_to_compute }

/-- Retry wrapper `generate_report_outline` (outline_agent.py lines 891-997)
over the outcomes of up to `max_retries` oracle attempts (`none` models an
attempt whose oracle call or response parse raised).  When every attempt has
failed, control reaches the default-outline block at line 947, whose first
statement `available_metrics = self._load_available_metrics()` references
`self` inside a module-level function and therefore raises `NameError`; the
rest of the default-outline block is unreachable. -/
def generate_report_outline : List (Option ReportOutline) → Except String ReportOutline
  | [] => .error "NameError: name self is not defined"
  | some o :: _ => .ok o
  | none :: rest => generate_report_outline rest

/-- State transition `update_state_with_outline_generation`
(workflow_state.py lines 251-276). -/
def update_state_with_outline_generation (s : WorkflowState) (o : ReportOutline) :
    WorkflowState :=
  { s with
    outline_draft := some o
    outline_version := s.outline_version + 1
    outline_ready := true
    metrics_requirements := o.global_metrics
    pending_metric_ids := o.global_metrics.map (fun m => m.metric_id) }

/-- Outline generator node `_outline_generator_node`
(complete_agent_flow_rule.py lines 197-227): on success the outline is
installed via `update_state_with_outline_generation`; an exception escaping
`generate_report_outline` is caught and only appended to `errors`. -/
def outline_generator_node (attempts : List (Option ReportOutline)) (s : WorkflowState) :
    WorkflowState :=
  match generate_report_outline attempts with
  | .ok o => update_state_with_outline_generation s o
  | .error e => { s with errors := s.errors ++ ["大纲生成错误: " ++ e] }

/-- Metric evaluator node `_metric_evaluator_node`
(complete_agent_flow_rule.py lines 280-322): copies the outline metrics into
`metrics_requirements`, seeds `pending_metric_ids` with their ids and clears
`computed_metrics`; with no outline it returns the state unchanged. -/
def metric_evaluator_node (s : WorkflowState) : WorkflowState :=
  match s.outline_draft with
  | none => s
  | some outline =>
    { s with
      metrics_requirements := outline.global_metrics
      pending_metric_ids := outline.global_metrics.map (fun m => m.metric_id)
      computed_metrics := [] }

/-- Outcome of one rules-engine `calculate_metrics` call for one metric:
either the call raises, or it returns a `results` list of entries. -/
inductive EngineOutcome where
  | raised
  | returned (results : List EngineEntry)

/-- Handling of one element of the `results` list returned by the rules
engine (complete_agent_flow_rule.py lines 416-425): a successful entry is
stored under `computed_metrics[metric_id]` and counted as a success, any
other entry is counted as a failure. -/
def process_result_entry (mid : String) (a : WorkflowState × Nat × Nat)
    (entry : EngineEntry) : WorkflowState × Nat × Nat :=
  if entry.success then
    ({ a.1 with computed_metrics := dictSet a.1.computed_metrics mid entry },
      a.2.1 + 1, a.2.2)
  else
    (a.1, a.2.1, a.2.2 + 1)

/-- Body of the per-metric loop of `_metric_calculator_node`
(complete_agent_flow_rule.py lines 364-436), threading the state together
with the `successful_calculations` and `failed_calculations` counters.
Every branch — missing requirement, raised engine call, returned results —
ends by removing the metric id from `pending_metric_ids` (Python
`list.remove`, which drops the first occurrence). -/
def metric_calc_step (engine : String → EngineOutcome) (reqs : List MetricRequirement)
    (acc : WorkflowState × Nat × Nat) (mid : String) : WorkflowState × Nat × Nat :=
  let st := acc.1
  let succ := acc.2.1
  let fail := acc.2.2
  match reqs.find? (fun m => m.metric_id == mid) with
  | none =>
    ({ st with pending_metric_ids := st.pending_metric_ids.erase mid }, succ, fail)
  | some _ =>
    match engine mid with
    | .raised =>
      ({ st with pending_metric_ids := st.pending_metric_ids.erase mid }, succ, fail + 1)
    | .returned results =>
      let folded := results.foldl (process_result_entry mid) (st, succ, fail)
      ({ folded.1 with pending_metric_ids := folded.1.pending_metric_ids.erase mid },
        folded.2.1, folded.2.2)

/-- Input batch of one metric calculator invocation
(complete_agent_flow_rule.py lines 341-347): the explicit batch
`current_batch_metrics` when non-empty, otherwise the whole
`pending_metric_ids`. -/
def calculator_batch (s : WorkflowState) : List String :=
  if s.current_batch_metrics ≠ [] then s.current_batch_metrics else s.pending_metric_ids

/-- Metric calculator node `_metric_calculator_node`
(complete_agent_flow_rule.py lines 324-472): with an empty batch or empty
`metrics_requirements` the node returns the state unchanged (lines 349-357),
otherwise it processes every batch metric in order and records the result
statistics.  The `total_configs` statistic is `len(pending_ids)` evaluated at
line 440, after the loop: `new_state = state.copy()` is a shallow copy, so in
the implicit-batch case the Python variable `pending_ids` is the very list
object the loop mutated with `list.remove`, and its post-loop length is the
length of the updated `pending_metric_ids`; in the explicit-batch case it is
the unmutated `current_batch_metrics` list, whose length is unchanged. -/
def metric_calculator_node (engine : String → EngineOutcome) (s : WorkflowState) :
    WorkflowState :=
  let pending_ids := calculator_batch s
  if pending_ids = [] then s
  else if s.metrics_requirements = [] then s
  else
    let folded := pending_ids.foldl (metric_calc_step engine s.metrics_requirements) (s, 0, 0)
    { folded.1 with
      calculation_results := some
        { total_configs :=
            if s.current_batch_metrics ≠ [] then s.current_batch_metrics.length
            else folded.1.pending_metric_ids.length
          successful_calculations := folded.2.1
          failed_calculations := folded.2.2 } }

/-- Per-metric value of a section of the final report
(complete_agent_flow_rule.py lines 511-515): the computed result when the id
is a key of `computed_metrics`, the missing-data sentinel otherwise. -/
def section_metric_value (computed : List (String × EngineEntry)) (mid : String) :
    SectionMetricValue :=
  match computed.lookup mid with
  | some e => .result e
  | none => .text data_missing_sentinel

/-- Section content built by `_report_finalizer_node`
(complete_agent_flow_rule.py lines 502-517). -/
def build_section_content (computed : List (String × EngineEntry)) (sec : ReportSection) :
    SectionContent :=
  { section_id := sec.section_id
    title := sec.title
    description := sec.description
    metrics :=
      sec.metrics_needed.foldl
        (fun m mid => dictSet m mid (section_metric_value computed mid)) [] }

/-- State transition `finalize_state_with_report`
(workflow_state.py lines 307-328). -/
def finalize_state_with_report (s : WorkflowState) (r : FinalReport) : WorkflowState :=
  { s with
    report_draft := some r
    is_complete := true
    completeness_score :=
      coverage_rate s.metrics_requirements.length s.computed_metrics.length }

/-- Report finalizer node `_report_finalizer_node`
(complete_agent_flow_rule.py lines 474-551): with no outline the raised
ValueError is caught and appended to `errors`; otherwise the final report is
assembled and installed via `finalize_state_with_report`. -/
def report_finalizer_node (s : WorkflowState) : WorkflowState :=
  match s.outline_draft with
  | none => { s with errors := s.errors ++ ["报告完成错误: 没有可用的报告大纲"] }
  | some outline =>
    let computed := s.computed_metrics
    let final_report : FinalReport :=
      { title := outline.report_title
        total_sections := outline.sections.length
        total_metrics_required := outline.global_metrics.length
        total_metrics_computed := computed.length
        planning_steps := s.planning_step
        completion_rate :=
          if outline.global_metrics ≠ [] then
            (computed.length : ℚ) / (outline.global_metrics.length : ℚ)
          else 0
        sections := outline.sections.map (build_section_content computed)
        metrics_detail :=
          outline.global_metrics.foldl
            (fun m req =>
              dictSet m req.metric_id
                { name := req.metric_name
                  logic := req.calculation_logic
                  required_fields := req.required_fields
                  computed := (computed.lookup req.metric_id).isSome
                  value :=
                    match computed.lookup req.metric_id with
                    | some e => e.value.getD "N/A"
                    | none => "N/A" }) [] }
    finalize_state_with_report s final_report

/-- Per-section metric map of `compile_final_report` in
`other_agents/graph.py` (lines 116-120): `metrics.get(mid, "数据缺失")`. -/
def graph_section_metrics (computed : List (String × EngineEntry)) (sec : ReportSection) :
    List (String × SectionMetricValue) :=
  sec.metrics_needed.foldl
    (fun m mid =>
      dictSet m mid
        (match computed.lookup mid with
         | some e => .result e
         | none => .text data_missing_sentinel)) []

/-- External inputs consumed by one cycle of the workflow: the Decision
Oracle outcome seen by the planning node, the outline-attempt outcomes seen
by the outline generator, and the per-metric Knowledge Engine outcomes seen
by the metric calculator. -/
structure CycleEnv where
  oracle : OracleOutcome
  outline_attempts : List (Option ReportOutline)
  engine : String → EngineOutcome

/-- Result of one workflow cycle: `halted` when the router leaves the
planning loop (the langgraph `END` sentinel, or the report finalizer whose
only outgoing edge is `END`), `running` otherwise. -/
inductive CycleResult where
  | halted (s : WorkflowState)
  | running (s : WorkflowState)

/-- State carried by a cycle result. -/
def CycleResult.state : CycleResult → WorkflowState
  | .halted s => s
  | .running s => s

/-- True when the cycle result has left the planning loop. -/
def CycleResult.isHalted : CycleResult → Bool
  | .halted _ => true
  | .running _ => false

/-- One cycle of the compiled workflow graph
(complete_agent_flow_rule.py lines 77-110): the planning node runs, then the
conditional edge `_route_from_planning` selects the next node; the outline
generator, metric evaluator and metric calculator loop back to planning,
while `END` and the report finalizer terminate.  The `planning_node` route
value has no entry in the conditional edge map and is unreachable
(see `route_from_planning_total`). -/
def workflow_cycle (env : CycleEnv) (s : WorkflowState) : CycleResult :=
  let s1 := planning_node env.oracle s
  match route_from_planning s1 with
  | .endRoute => .halted s1
  | .report_finalizer => .halted (report_finalizer_node s1)
  | .outline_generator => .running (outline_generator_node env.outline_attempts s1)
  | .metric_evaluator => .running (metric_evaluator_node s1)
  | .metric_calculator => .running (metric_calculator_node env.engine s1)
  | .planning_node => .running s1

/-- Runs up to `n` workflow cycles, feeding cycle `i` the environment
`envs i`; once a cycle halts the result is final. -/
def workflow_run (envs : Nat → CycleEnv) : Nat → WorkflowState → CycleResult
  | 0, s => .running s
  | n + 1, s =>
    match workflow_cycle (envs 0) s with
    | .halted t => .halted t
    | .running t => workflow_run (fun i => envs (i + 1)) n t

/-- Python runtime values as seen by the serialization normalizer
`convert_numpy_types`: native primitives, containers, the numpy wrapper
types the normalizer recognises, and `object` for any other value (handled
by the final `return obj` branch).  `npInt`, `npFloat` and `npBool` carry
the native value their `item()` method returns; `ndarray` carries the
element view its `tolist()` method returns (one nesting level per list);
`npScalar` covers the remaining numpy scalar kinds, carrying the native
value of `item()`.  Python floats are modelled as exact rationals. -/
inductive PyVal where
  | str (s : String)
  | intV (n : Int)
  | floatV (q : ℚ)
  | boolV (b : Bool)
  | pyNone
  | list (xs : List PyVal)
  | tuple (xs : List PyVal)
  | setV (xs : List PyVal)
  | dict (entries : List (PyVal × PyVal))
  | npInt (n : Int)
  | npFloat (q : ℚ)
  | npBool (b : Bool)
  | ndarray (elems : List PyVal)
  | npScalar (item : PyVal)
  | object (descr : String)

mutual

/-- Model of the Python builtin `str` applied to a dict key, as in the key
normalisation `str(k)`; only its value on strings (the identity) matters to
the theorems below, the other cases model the builtin repr rendering. -/
def pyStr : PyVal → String
  | .str s => s
  | .intV n => toString n
  | .floatV q => toString q
  | .boolV true => "True"
  | .boolV false => "False"
  | .pyNone => "None"
  | .list xs => "[" ++ pyStrList xs ++ "]"
  | .tuple xs => "(" ++ pyStrList xs ++ ")"
  | .setV xs => "\x7b" ++ pyStrList xs ++ "\x7d"
  | .dict es => "\x7b" ++ pyStrEntries es ++ "\x7d"
  | .npInt n => toString n
  | .npFloat q => toString q
  | .npBool true => "True"
  | .npBool false => "False"
  | .ndarray xs => "[" ++ pyStrList xs ++ "]"
  | .npScalar item => pyStr item
  | .object d => d

/-- Comma-joined rendering of container elements for `pyStr`. -/
def pyStrList : List PyVal → String
  | [] => ""
  | [x] => pyStr x
  | x :: xs => pyStr x ++ ", " ++ pyStrList xs

/-- Comma-joined rendering of dict entries for `pyStr`. -/
def pyStrEntries : List (PyVal × PyVal) → String
  | [] => ""
  | [(k, v)] => pyStr k ++ ": " ++ pyStr v
  | (k, v) :: es => pyStr k ++ ": " ++ pyStr v ++ ", " ++ pyStrEntries es

end

mutual

/-- Serialization normalizer `convert_numpy_types` of
`other_agents/state.py` (lines 35-59): recurses through dicts (converting
every key with `str`), lists, tuples and sets, unwraps `np.integer`,
`np.floating` and `np.bool_` to native values, converts `np.ndarray` via
`tolist()`, unwraps any remaining numpy scalar via `item()`, and returns
every other value unchanged. -/
def convert_numpy_types : PyVal → PyVal
  | .dict es => .dict (convert_numpy_entries es)
  | .list xs => .list (convert_numpy_list xs)
  | .tuple xs => .tuple (convert_numpy_list xs)
  | .setV xs => .setV (convert_numpy_list xs)
  | .npInt n => .intV n
  | .npFloat q => .floatV q
  | .npBool b => .boolV b
  | .ndarray xs => .list (convert_numpy_list xs)
  | .npScalar item => convert_numpy_types item
  | v => v

/-- Elementwise normalisation of container contents
(`convert_numpy_types(item) for item in obj`). -/
def convert_numpy_list : List PyVal → List PyVal
  | [] => []
  | x :: xs => convert_numpy_types x :: convert_numpy_list xs

/-- Entrywise normalisation of dict contents
(`str(k): convert_numpy_types(v) for k, v in obj.items()`). -/
def convert_numpy_entries : List (PyVal × PyVal) → List (PyVal × PyVal)
  | [] => []
  | (k, v) :: es => (.str (pyStr k), convert_numpy_types v) :: convert_numpy_entries es

end

mutual

/-- Serialization normalizer `convert_numpy_types` of
`贾强/workflow_state.py` (lines 59-75), which detects numpy values only by
the duck-typed check `hasattr(obj, "item") and hasattr(obj, "dtype")` and
then recurses on `obj.item()`.  For `np.integer`, `np.floating` and
`np.bool_` inputs `item()` yields the native value, on which the recursion
is the identity; an `np.ndarray` also passes the duck-typed check, and its
`item()` returns the sole element of a one-element array but raises
`ValueError` for any other size — hence the result is an `Option`, with
`none` modelling the raised `ValueError`. -/
def convert_numpy_types_wfs : PyVal → Option PyVal
  | .dict es => (convert_numpy_entries_wfs es).map .dict
  | .list xs => (convert_numpy_list_wfs xs).map .list
  | .tuple xs => (convert_numpy_list_wfs xs).map .tuple
  | .setV xs => (convert_numpy_list_wfs xs).map .setV
  | .npInt n => some (.intV n)
  | .npFloat q => some (.floatV q)
  | .npBool b => some (.boolV b)
  | .npScalar item => convert_numpy_types_wfs item
  | .ndarray [x] => convert_numpy_types_wfs x
  | .ndarray _ => none
  | v => some v

/-- Elementwise normalisation for the duck-typed variant; `none` as soon as
one element raises. -/
def convert_numpy_list_wfs : List PyVal → Option (List PyVal)
  | [] => some []
  | x :: xs =>
    match convert_numpy_types_wfs x, convert_numpy_list_wfs xs with
    | some y, some ys => some (y :: ys)
    | _, _ => none

/-- Entrywise normalisation for the duck-typed variant. -/
def convert_numpy_entries_wfs : List (PyVal × PyVal) → Option (List (PyVal × PyVal))
  | [] => some []
  | (k, v) :: es =>
    match convert_numpy_types_wfs v, convert_numpy_entries_wfs es with
    | some w, some ws => some ((.str (pyStr k), w) :: ws)
    | _, _ => none

end

mutual

/-- Every dict reachable inside the value has only string keys. -/
def str_keys_only : PyVal → Bool
  | .dict es => str_keys_only_entries es
  | .list xs => str_keys_only_list xs
  | .tuple xs => str_keys_only_list xs
  | .setV xs => str_keys_only_list xs
  | .ndarray xs => str_keys_only_list xs
  | .npScalar item => str_keys_only item
  | _ => true

/-- Every dict reachable inside the list has only string keys. -/
def str_keys_only_list : List PyVal → Bool
  | [] => true
  | x :: xs => str_keys_only x && str_keys_only_list xs

/-- Every key is a string, and every dict reachable inside a key or value has
only string keys. -/
def str_keys_only_entries : List (PyVal × PyVal) → Bool
  | [] => true
  | (k, v) :: es =>
    (match k with | .str _ => true | _ => false) &&
      str_keys_only k && str_keys_only v && str_keys_only_entries es

end

/-- Generic metric requirement used by the concrete states below. -/
def mkReq (i : String) : MetricRequirement :=
  { metric_id := i
    metric_name := i
    calculation_logic := "统计" ++ i
    required_fields := ["transactions"]
    dependencies := [] }

/-- Outline with one section listing the given requirements. -/
def mkOutline (reqs : List MetricRequirement) : ReportOutline :=
  { report_title := "流水分析报告"
    sections := [{ section_id := "sec_1", title := "概览", description := "基础分析",
                   metrics_needed := reqs.map (fun m => m.metric_id) }]
    global_metrics := reqs }

/-- Successful engine result entry. -/
def okEntry : EngineEntry := { success := true, value := some "100" }

/-- Failing engine result entry (non-success status). -/
def failEntry : EngineEntry := { success := false, value := none }

/-- Knowledge engine outcome that succeeds on every metric. -/
def engine_ok : String → EngineOutcome := fun _ => .returned [okEntry]

/-- Knowledge engine outcome that fails on every metric. -/
def engine_fail : String → EngineOutcome := fun _ => .returned [failEntry]

/-- State whose planning step has just passed the hard ceiling of 30. -/
def c1_state : WorkflowState :=
  { create_initial_integrated_state with planning_step := 31 }

/-- State with a pending metric but no requirement information at all: the
calculator node returns it unchanged (complete_agent_flow_rule.py line 357). -/
def c2_state_a : WorkflowState :=
  { create_initial_integrated_state with
    outline_draft := some (mkOutline [])
    pending_metric_ids := ["x"] }

/-- State whose pending list holds a duplicated id while the explicit batch
lists it once: one `list.remove` drops only the first occurrence. -/
def c2_state_b : WorkflowState :=
  { create_initial_integrated_state with
    outline_draft := some (mkOutline [mkReq "x"])
    metrics_requirements := [mkReq "x"]
    pending_metric_ids := ["x", "x"]
    current_batch_metrics := ["x"] }

/-- Well-formed single-metric state for the C2 witness. -/
def c2w_state : WorkflowState :=
  { create_initial_integrated_state with
    outline_draft := some (mkOutline [mkReq "x"])
    metrics_requirements := [mkReq "x"]
    pending_metric_ids := ["x"] }

/-- The metric of spec scenario C, failing in every cycle. -/
def c4_req : MetricRequirement := mkReq "total_expense"

/-- Cycle environment for scenario C: the Decision Oracle raises on every
planning call and the Knowledge Engine fails on every metric. -/
def c4_env : CycleEnv :=
  { oracle := .raised
    outline_attempts := []
    engine := engine_fail }

/-- Initial state for scenario C: outline generated, one requirement,
nothing computed yet. -/
def c4_state : WorkflowState :=
  { create_initial_integrated_state with
    outline_draft := some (mkOutline [c4_req])
    outline_version := 1
    outline_ready := true
    metrics_requirements := [c4_req]
    pending_metric_ids := ["total_expense"] }

/-- Five requirements of which four are computed: coverage is exactly 0.8. -/
def c5_reqs : List MetricRequirement :=
  [mkReq "m1", mkReq "m2", mkReq "m3", mkReq "m4", mkReq "m5"]

/-- State of spec scenario E: coverage exactly 0.8 with a valid pending
metric remaining. -/
def c5_state : WorkflowState :=
  { create_initial_integrated_state with
    outline_draft := some (mkOutline c5_reqs)
    metrics_requirements := c5_reqs
    computed_metrics := [("m1", okEntry), ("m2", okEntry), ("m3", okEntry), ("m4", okEntry)]
    pending_metric_ids := ["m5"]
    planning_step := 1 }

/-- State with requirements but an empty pending set and zero coverage, fed
to the graph-variant router. -/
def c5g_state : WorkflowState :=
  { create_initial_integrated_state with
    outline_draft := some (mkOutline c5_reqs)
    metrics_requirements := c5_reqs
    pending_metric_ids := []
    planning_step := 1 }

/-- Decision Oracle reply whose batch names an already computed metric. -/
def c6_oracle : OracleOutcome :=
  .ok { decision := "compute_metrics", metrics_to_compute := ["a"], priority_metrics := [] }

/-- State in which metric "a" is already computed and no metric is pending. -/
def c6_state : WorkflowState :=
  { create_initial_integrated_state with
    outline_draft := some (mkOutline [mkReq "a"])
    metrics_requirements := [mkReq "a"]
    computed_metrics := [("a", okEntry)]
    pending_metric_ids := [] }

/-- State for the C6 witness: two pending metrics, explicit batch naming the
first one. -/
def c6w_state : WorkflowState :=
  { create_initial_integrated_state with
    outline_draft := some (mkOutline [mkReq "x", mkReq "y"])
    metrics_requirements := [mkReq "x", mkReq "y"]
    pending_metric_ids := ["x", "y"]
    current_batch_metrics := ["x"] }

/-- State in which metric "m" has exhausted its retries. -/
def c7_state : WorkflowState :=
  { create_initial_integrated_state with
    outline_draft := some (mkOutline [mkReq "m"])
    metrics_requirements := [mkReq "m"]
    pending_metric_ids := ["m"]
    failed_metric_attempts := [("m", 3)] }

/-- Outline referencing one computed and one dangling metric id. -/
def c9_outline : ReportOutline :=
  { report_title := "流水分析报告"
    sections := [{ section_id := "sec_1", title := "概览", description := "基础分析",
                   metrics_needed := ["present", "absent"] }]
    global_metrics := [mkReq "present"] }

/-- The single section of `c9_outline`. -/
def c9_sec : ReportSection :=
  { section_id := "sec_1", title := "概览", description := "基础分析",
    metrics_needed := ["present", "absent"] }

/-- State for the C9 witness: only metric "present" is computed. -/
def c9_state : WorkflowState :=
  { create_initial_integrated_state with
    outline_draft := some c9_outline
    metrics_requirements := [mkReq "present"]
    computed_metrics := [("present", okEntry)] }

mutual

/-- The explicit-branch normalizer is idempotent. -/
theorem convert_numpy_types_idem : (v : PyVal) →
    convert_numpy_types (convert_numpy_types v) = convert_numpy_types v
  | .str _ => rfl
  | .intV _ => rfl
  | .floatV _ => rfl
  | .boolV _ => rfl
  | .pyNone => rfl
  | .list xs => by simp [convert_numpy_types, convert_numpy_list_idem xs]
  | .tuple xs => by simp [convert_numpy_types, convert_numpy_list_idem xs]
  | .setV xs => by simp [convert_numpy_types, convert_numpy_list_idem xs]
  | .dict es => by simp [convert_numpy_types, convert_numpy_entries_idem es]
  | .npInt _ => rfl
  | .npFloat _ => rfl
  | .npBool _ => rfl
  | .ndarray xs => by simp [convert_numpy_types, convert_numpy_list_idem xs]
  | .npScalar item => convert_numpy_types_idem item
  | .object _ => rfl

/-- Elementwise idempotence for the explicit-branch normalizer. -/
theorem convert_numpy_list_idem : (xs : List PyVal) →
    convert_numpy_list (convert_numpy_list xs) = convert_numpy_list xs
  | [] => rfl
  | x :: xs => by
    simp [convert_numpy_list, convert_numpy_types_idem x, convert_numpy_list_idem xs]

/-- Entrywise idempotence for the explicit-branch normalizer: a once
normalised key is a string, on which `str` is the identity. -/
theorem convert_numpy_entries_idem : (es : List (PyVal × PyVal)) →
    convert_numpy_entries (convert_numpy_entries es) = convert_numpy_entries es
  | [] => rfl
  | (k, v) :: es => by
    simp [convert_numpy_entries, pyStr, convert_numpy_types_idem v,
      convert_numpy_entries_idem es]

end

mutual

/-- Every dict in the output of the explicit-branch normalizer has only
string keys. -/
theorem str_keys_only_convert : (v : PyVal) →
    str_keys_only (convert_numpy_types v) = true
  | .str _ => rfl
  | .intV _ => rfl
  | .floatV _ => rfl
  | .boolV _ => rfl
  | .pyNone => rfl
  | .list xs => by simp [convert_numpy_types, str_keys_only, str_keys_only_list_convert xs]
  | .tuple xs => by simp [convert_numpy_types, str_keys_only, str_keys_only_list_convert xs]
  | .setV xs => by simp [convert_numpy_types, str_keys_only, str_keys_only_list_convert xs]
  | .dict es => by
    simp [convert_numpy_types, str_keys_only, str_keys_only_entries_convert es]
  | .npInt _ => rfl
  | .npFloat _ => rfl
  | .npBool _ => rfl
  | .ndarray xs => by
    simp [convert_numpy_types, str_keys_only, str_keys_only_list_convert xs]
  | .npScalar item => str_keys_only_convert item
  | .object _ => rfl

/-- List version of `str_keys_only_convert`. -/
theorem str_keys_only_list_convert : (xs : List PyVal) →
    str_keys_only_list (convert_numpy_list xs) = true
  | [] => rfl
  | x :: xs => by
    simp [convert_numpy_list, str_keys_only_list, str_keys_only_convert x,
      str_keys_only_list_convert xs]

/-- Entry version of `str_keys_only_convert`: normalised keys are string
literals. -/
theorem str_keys_only_entries_convert : (es : List (PyVal × PyVal)) →
    str_keys_only_entries (convert_numpy_entries es) = true
  | [] => rfl
  | (k, v) :: es => by
    simp [convert_numpy_entries, str_keys_only_entries, str_keys_only,
      str_keys_only_convert v, str_keys_only_entries_convert es]

end

mutual

/-- The duck-typed normalizer is idempotent wherever it is defined. -/
theorem convert_numpy_types_wfs_idem : (v : PyVal) → ∀ w,
    convert_numpy_types_wfs v = some w → convert_numpy_types_wfs w = some w
  | .str _, w, h => by
    simp only [convert_numpy_types_wfs, Option.some.injEq] at h
    subst h; rfl
  | .intV _, w, h => by
    simp only [convert_numpy_types_wfs, Option.some.injEq] at h
    subst h; rfl
  | .floatV _, w, h => by
    simp only [convert_numpy_types_wfs, Option.some.injEq] at h
    subst h; rfl
  | .boolV _, w, h => by
    simp only [convert_numpy_types_wfs, Option.some.injEq] at h
    subst h; rfl
  | .pyNone, w, h => by
    simp only [convert_numpy_types_wfs, Option.some.injEq] at h
    subst h; rfl
  | .object _, w, h => by
    simp only [convert_numpy_types_wfs, Option.some.injEq] at h
    subst h; rfl
  | .npInt _, w, h => by
    simp only [convert_numpy_types_wfs, Option.some.injEq] at h
    subst h; rfl
  | .npFloat _, w, h => by
    simp only [convert_numpy_types_wfs, Option.some.injEq] at h
    subst h; rfl
  | .npBool _, w, h => by
    simp only [convert_numpy_types_wfs, Option.some.injEq] at h
    subst h; rfl
  | .npScalar item, w, h => convert_numpy_types_wfs_idem item w h
  | .ndarray [x], w, h => convert_numpy_types_wfs_idem x w h
  | .ndarray [], w, h => by simp [convert_numpy_types_wfs] at h
  | .ndarray (_ :: _ :: _), w, h => by simp [convert_numpy_types_wfs] at h
  | .list xs, w, h => by
    simp only [convert_numpy_types_wfs, Option.map_eq_some'] at h
    obtain ⟨ys, hys, rfl⟩ := h
    simp [convert_numpy_types_wfs, convert_numpy_list_wfs_idem xs ys hys]
  | .tuple xs, w, h => by
    simp only [convert_numpy_types_wfs, Option.map_eq_some'] at h
    obtain ⟨ys, hys, rfl⟩ := h
    simp [convert_numpy_types_wfs, convert_numpy_list_wfs_idem xs ys hys]
  | .setV xs, w, h => by
    simp only [convert_numpy_types_wfs, Option.map_eq_some'] at h
    obtain ⟨ys, hys, rfl⟩ := h
    simp [convert_numpy_types_wfs, convert_numpy_list_wfs_idem xs ys hys]
  | .dict es, w, h => by
    simp only [convert_numpy_types_wfs, Option.map_eq_some'] at h
    obtain ⟨fs, hfs, rfl⟩ := h
    simp [convert_numpy_types_wfs, convert_numpy_entries_wfs_idem es fs hfs]

/-- List version of `convert_numpy_types_wfs_idem`. -/
theorem convert_numpy_list_wfs_idem : (xs : List PyVal) → ∀ ys,
    convert_numpy_list_wfs xs = some ys → convert_numpy_list_wfs ys = some ys
  | [], ys, h => by
    simp only [convert_numpy_list_wfs, Option.some.injEq] at h
    subst h; rfl
  | x :: xs, ys, h => by
    simp only [convert_numpy_list_wfs] at h
    cases hx : convert_numpy_types_wfs x with
    | none => rw [hx] at h; exact absurd h (by simp)
    | some y =>
      cases hxs : convert_numpy_list_wfs xs with
      | none => rw [hx, hxs] at h; exact absurd h (by simp)
      | some ys0 =>
        rw [hx, hxs] at h
        simp only [Option.some.injEq] at h
        subst h
        simp [convert_numpy_list_wfs, convert_numpy_types_wfs_idem x y hx,
          convert_numpy_list_wfs_idem xs ys0 hxs]

/-- Entry version of `convert_numpy_types_wfs_idem`. -/
theorem convert_numpy_entries_wfs_idem : (es : List (PyVal × PyVal)) → ∀ fs,
    convert_numpy_entries_wfs es = some fs → convert_numpy_entries_wfs fs = some fs
  | [], fs, h => by
    simp only [convert_numpy_entries_wfs, Option.some.injEq] at h
    subst h; rfl
  | (k, v) :: es, fs, h => by
    simp only [convert_numpy_entries_wfs] at h
    cases hv : convert_numpy_types_wfs v with
    | none => rw [hv] at h; exact absurd h (by simp)
    | some w =>
      cases hes : convert_numpy_entries_wfs es with
      | none => rw [hv, hes] at h; exact absurd h (by simp)
      | some ws =>
        rw [hv, hes] at h
        simp only [Option.some.injEq] at h
        subst h
        simp [convert_numpy_entries_wfs, pyStr, convert_numpy_types_wfs_idem v w hv,
          convert_numpy_entries_wfs_idem es ws hes]

end

mutual

/-- Every dict in a defined output of the duck-typed normalizer has only
string keys. -/
theorem str_keys_only_wfs : (v : PyVal) → ∀ w,
    convert_numpy_types_wfs v = some w → str_keys_only w = true
  | .str _, w, h => by
    simp only [convert_numpy_types_wfs, Option.some.injEq] at h
    subst h; rfl
  | .intV _, w, h => by
    simp only [convert_numpy_types_wfs, Option.some.injEq] at h
    subst h; rfl
  | .floatV _, w, h => by
    simp only [convert_numpy_types_wfs, Option.some.injEq] at h
    subst h; rfl
  | .boolV _, w, h => by
    simp only [convert_numpy_types_wfs, Option.some.injEq] at h
    subst h; rfl
  | .pyNone, w, h => by
    simp only [convert_numpy_types_wfs, Option.some.injEq] at h
    subst h; rfl
  | .object _, w, h => by
    simp only [convert_numpy_types_wfs, Option.some.injEq] at h
    subst h; rfl
  | .npInt _, w, h => by
    simp only [convert_numpy_types_wfs, Option.some.injEq] at h
    subst h; rfl
  | .npFloat _, w, h => by
    simp only [convert_numpy_types_wfs, Option.some.injEq] at h
    subst h; rfl
  | .npBool _, w, h => by
    simp only [convert_numpy_types_wfs, Option.some.injEq] at h
    subst h; rfl
  | .npScalar item, w, h => str_keys_only_wfs item w h
  | .ndarray [x], w, h => str_keys_only_wfs x w h
  | .ndarray [], w, h => by simp [convert_numpy_types_wfs] at h
  | .ndarray (_ :: _ :: _), w, h => by simp [convert_numpy_types_wfs] at h
  | .list xs, w, h => by
    simp only [convert_numpy_types_wfs, Option.map_eq_some'] at h
    obtain ⟨ys, hys, rfl⟩ := h
    simp [str_keys_only, str_keys_only_list_wfs xs ys hys]
  | .tuple xs, w, h => by
    simp only [convert_numpy_types_wfs, Option.map_eq_some'] at h
    obtain ⟨ys, hys, rfl⟩ := h
    simp [str_keys_only, str_keys_only_list_wfs xs ys hys]
  | .setV xs, w, h => by
    simp only [convert_numpy_types_wfs, Option.map_eq_some'] at h
    obtain ⟨ys, hys, rfl⟩ := h
    simp [str_keys_only, str_keys_only_list_wfs xs ys hys]
  | .dict es, w, h => by
    simp only [convert_numpy_types_wfs, Option.map_eq_some'] at h
    obtain ⟨fs, hfs, rfl⟩ := h
    simp [str_keys_only, str_keys_only_entries_wfs es fs hfs]

/-- List version of `str_keys_only_wfs`. -/
theorem str_keys_only_list_wfs : (xs : List PyVal) → ∀ ys,
    convert_numpy_list_wfs xs = some ys → str_keys_only_list ys = true
  | [], ys, h => by
    simp only [convert_numpy_list_wfs, Option.some.injEq] at h
    subst h; rfl
  | x :: xs, ys, h => by
    simp only [convert_numpy_list_wfs] at h
    cases hx : convert_numpy_types_wfs x with
    | none => rw [hx] at h; exact absurd h (by simp)
    | some y =>
      cases hxs : convert_numpy_list_wfs xs with
      | none => rw [hx, hxs] at h; exact absurd h (by simp)
      | some ys0 =>
        rw [hx, hxs] at h
        simp only [Option.some.injEq] at h
        subst h
        simp [str_keys_only_list, str_keys_only_wfs x y hx,
          str_keys_only_list_wfs xs ys0 hxs]

/-- Entry version of `str_keys_only_wfs`. -/
theorem str_keys_only_entries_wfs : (es : List (PyVal × PyVal)) → ∀ fs,
    convert_numpy_entries_wfs es = some fs → str_keys_only_entries fs = true
  | [], fs, h => by
    simp only [convert_numpy_entries_wfs, Option.some.injEq] at h
    subst h; rfl
  | (k, v) :: es, fs, h => by
    simp only [convert_numpy_entries_wfs] at h
    cases hv : convert_numpy_types_wfs v with
    | none => rw [hv] at h; exact absurd h (by simp)
    | some w =>
      cases hes : convert_numpy_entries_wfs es with
      | none => rw [hv, hes] at h; exact absurd h (by simp)
      | some ws =>
        rw [hv, hes] at h
        simp only [Option.some.injEq] at h
        subst h
        simp [str_keys_only_entries, str_keys_only, str_keys_only_wfs v w hv,
          str_keys_only_entries_wfs es ws hes]

end

/-- C10: the serialization normalizer `convert_numpy_types` is idempotent
and every dict anywhere in its output has only string keys, recursively.
Both source variants are covered: the explicit-branch variant of
`other_agents/state.py` (total), and the duck-typed variant of
`贾强/workflow_state.py`, which is partial (its `item()` call raises
`ValueError` on a multi-element `np.ndarray`) and enjoys both properties
wherever it returns a value. -/
theorem claim_C10_convert_numpy_types_idempotent_string_keys :
    (∀ v, convert_numpy_types (convert_numpy_types v) = convert_numpy_types v) ∧
    (∀ v, str_keys_only (convert_numpy_types v) = true) ∧
    (∀ v w, convert_numpy_types_wfs v = some w → convert_numpy_types_wfs w = some w) ∧
    (∀ v w, convert_numpy_types_wfs v = some w → str_keys_only w = true) :=
  ⟨convert_numpy_types_idem, str_keys_only_convert,
    fun v w h => convert_numpy_types_wfs_idem v w h,
    fun v w h => str_keys_only_wfs v w h⟩

/-- Witness for C10 at a concrete numpy integer value. -/
theorem claim_C10_witness :
    convert_numpy_types_wfs (PyVal.intV 3) = some (PyVal.intV 3) ∧
    str_keys_only (PyVal.intV 3) = true :=
  ⟨claim_C10_convert_numpy_types_idempotent_string_keys.2.2.1
      (PyVal.npInt 3) (PyVal.intV 3) rfl,
    claim_C10_convert_numpy_types_idempotent_string_keys.2.2.2
      (PyVal.npInt 3) (PyVal.intV 3) rfl⟩

/-- Lookup skips a head entry with a different key. -/
theorem lookup_cons_ne {α : Type} (es : List (String × α)) (k k2 : String) (v : α)
    (h : k2 ≠ k) :
    List.lookup k2 ((k, v) :: es) = List.lookup k2 es := by
  simp only [List.lookup]
  rw [show (k2 == k) = false from beq_eq_false_iff_ne.mpr h]

/-- Lookup hits a head entry with the same key. -/
theorem lookup_cons_self {α : Type} (es : List (String × α)) (k : String) (v : α) :
    List.lookup k ((k, v) :: es) = some v := by
  simp [List.lookup]

/-- Replacing the bindings of key `k` leaves lookups of other keys alone. -/
theorem lookup_map_replace_other {α : Type} (k2 k : String) (v : α)
    (m : List (String × α)) (h : k2 ≠ k) :
    (m.map (fun p => if p.1 = k then (k, v) else p)).lookup k2 = m.lookup k2 := by
  induction m with
  | nil => rfl
  | cons p m ih =>
    rcases p with ⟨pk, pv⟩
    by_cases hp : pk = k
    · subst hp
      simp only [List.map_cons, if_true]
      rw [lookup_cons_ne _ _ _ _ h, lookup_cons_ne _ _ _ _ h, ih]
    · simp only [List.map_cons]
      rw [if_neg hp]
      by_cases hk2 : k2 = pk
      · subst hk2
        rw [lookup_cons_self, lookup_cons_self]
      · rw [lookup_cons_ne _ _ _ _ hk2, lookup_cons_ne _ _ _ _ hk2, ih]

/-- Replacing the bindings of a present key `k` makes its lookup `v`. -/
theorem lookup_map_replace_self {α : Type} (k : String) (v : α)
    (m : List (String × α)) (h : (m.lookup k).isSome) :
    (m.map (fun p => if p.1 = k then (k, v) else p)).lookup k = some v := by
  induction m with
  | nil => simp [List.lookup] at h
  | cons p m ih =>
    rcases p with ⟨pk, pv⟩
    by_cases hp : pk = k
    · subst hp
      simp only [List.map_cons, if_true]
      rw [lookup_cons_self]
    · simp only [List.map_cons]
      rw [if_neg hp]
      rw [lookup_cons_ne _ _ _ _ (fun hkk => hp hkk.symm)]
      rw [lookup_cons_ne _ _ _ _ (fun hkk => hp hkk.symm)] at h
      exact ih h

/-- Appending a fresh binding serves lookups of its key. -/
theorem lookup_append_self {α : Type} (k : String) (v : α)
    (m : List (String × α)) (h : m.lookup k = none) :
    (m ++ [(k, v)]).lookup k = some v := by
  induction m with
  | nil => simp [List.lookup]
  | cons p m ih =>
    rcases p with ⟨pk, pv⟩
    by_cases hp : k = pk
    · subst hp
      rw [lookup_cons_self] at h
      exact absurd h (by simp)
    · rw [lookup_cons_ne _ _ _ _ hp] at h
      rw [List.cons_append, lookup_cons_ne _ _ _ _ hp]
      exact ih h

/-- Appending a binding leaves lookups of other keys alone. -/
theorem lookup_append_other {α : Type} (k k2 : String) (v : α)
    (m : List (String × α)) (h : k2 ≠ k) :
    (m ++ [(k, v)]).lookup k2 = m.lookup k2 := by
  induction m with
  | nil =>
    rw [List.nil_append, lookup_cons_ne _ _ _ _ h]
  | cons p m ih =>
    rcases p with ⟨pk, pv⟩
    by_cases hp : k2 = pk
    · subst hp
      rw [List.cons_append, lookup_cons_self, lookup_cons_self]
    · rw [List.cons_append, lookup_cons_ne _ _ _ _ hp, lookup_cons_ne _ _ _ _ hp, ih]

/-- Lookup of the written key after a dict write. -/
theorem dictSet_lookup_self {α : Type} (m : List (String × α)) (k : String) (v : α) :
    (dictSet m k v).lookup k = some v := by
  unfold dictSet
  split
  case isTrue h => exact lookup_map_replace_self k v m h
  case isFalse h =>
    exact lookup_append_self k v m (Option.not_isSome_iff_eq_none.mp h)

/-- Lookup of any other key after a dict write. -/
theorem dictSet_lookup_other {α : Type} (m : List (String × α)) (k k2 : String) (v : α)
    (h : k2 ≠ k) :
    (dictSet m k v).lookup k2 = m.lookup k2 := by
  unfold dictSet
  split
  case isTrue _ => exact lookup_map_replace_other k2 k v m h
  case isFalse _ => exact lookup_append_other k k2 v m h


/-- An element of the result of iterated erasure was in the initial list. -/
theorem mem_of_mem_foldl_erase (l : List String) :
    ∀ p k, k ∈ l.foldl List.erase p → k ∈ p := by
  induction l with
  | nil => intro p k h; simpa using h
  | cons a l ih =>
    intro p k h
    exact List.mem_of_mem_erase (ih (p.erase a) k h)

/-- Iterated erasure preserves the absence of duplicates. -/
theorem nodup_foldl_erase (l : List String) :
    ∀ p : List String, p.Nodup → (l.foldl List.erase p).Nodup := by
  induction l with
  | nil => intro p hp; simpa using hp
  | cons a l ih => intro p hp; exact ih (p.erase a) (hp.erase a)

/-- Erasing every element of `l` from a duplicate-free list removes each of
them: one `list.remove` per occurrence suffices when there are no
duplicates. -/
theorem not_mem_foldl_erase (l : List String) :
    ∀ p : List String, p.Nodup → ∀ k, k ∈ l → k ∉ l.foldl List.erase p := by
  induction l with
  | nil => intro p _ k hk; simp at hk
  | cons a l ih =>
    intro p hp k hk
    simp only [List.foldl_cons]
    rcases List.mem_cons.mp hk with rfl | hkl
    · intro hmem
      have hin := mem_of_mem_foldl_erase l (p.erase k) k hmem
      exact ((hp.mem_erase_iff).mp hin).1 rfl
    · exact ih (p.erase a) (hp.erase a) k hkl

/-- Writing each key of a list with a key-determined value, then looking up
a key outside the list, reads the initial dict. -/
theorem foldl_dictSet_lookup_not_mem {α : Type} (f : String → α) (l : List String) :
    ∀ (init : List (String × α)) (k : String), k ∉ l →
      ((l.foldl (fun m x => dictSet m x (f x)) init).lookup k) = init.lookup k := by
  induction l with
  | nil => intro init k _; rfl
  | cons a l ih =>
    intro init k hk
    simp only [List.foldl_cons]
    have hka : k ≠ a := fun h => hk (h ▸ List.mem_cons_self a l)
    rw [ih (dictSet init a (f a)) k (fun h => hk (List.mem_cons_of_mem a h))]
    exact dictSet_lookup_other init a k (f a) hka

/-- Writing each key of a list with a key-determined value makes the lookup
of every listed key that value. -/
theorem foldl_dictSet_lookup_mem {α : Type} (f : String → α) (l : List String) :
    ∀ (init : List (String × α)) (k : String), k ∈ l →
      ((l.foldl (fun m x => dictSet m x (f x)) init).lookup k) = some (f k) := by
  induction l with
  | nil => intro init k hk; simp at hk
  | cons a l ih =>
    intro init k hk
    simp only [List.foldl_cons]
    by_cases hkl : k ∈ l
    · exact ih (dictSet init a (f a)) k hkl
    · rcases List.mem_cons.mp hk with rfl | hmem
      · rw [foldl_dictSet_lookup_not_mem f l (dictSet init k (f k)) k hkl]
        exact dictSet_lookup_self init k (f k)
      · exact absurd hmem hkl

/-- The result-entry fold touches only `computed_metrics` and the counters. -/
theorem foldl_process_result_entry_state (mid : String) (rs : List EngineEntry) :
    ∀ acc : WorkflowState × Nat × Nat,
      (rs.foldl (process_result_entry mid) acc).1.pending_metric_ids
          = acc.1.pending_metric_ids ∧
      (rs.foldl (process_result_entry mid) acc).1.planning_step
          = acc.1.planning_step := by
  induction rs with
  | nil => intro acc; exact ⟨rfl, rfl⟩
  | cons e rs ih =>
    intro acc
    simp only [List.foldl_cons]
    have step : (process_result_entry mid acc e).1.pending_metric_ids
        = acc.1.pending_metric_ids ∧
        (process_result_entry mid acc e).1.planning_step = acc.1.planning_step := by
      unfold process_result_entry
      split <;> exact ⟨rfl, rfl⟩
    rcases ih (process_result_entry mid acc e) with ⟨h1, h2⟩
    exact ⟨h1.trans step.1, h2.trans step.2⟩

/-- Lookups of keys other than the processed metric are unchanged by the
result-entry fold. -/
theorem foldl_process_result_entry_lookup_other (mid k : String) (hk : k ≠ mid)
    (rs : List EngineEntry) :
    ∀ acc : WorkflowState × Nat × Nat,
      (rs.foldl (process_result_entry mid) acc).1.computed_metrics.lookup k
        = acc.1.computed_metrics.lookup k := by
  induction rs with
  | nil => intro acc; rfl
  | cons e rs ih =>
    intro acc
    simp only [List.foldl_cons]
    rw [ih (process_result_entry mid acc e)]
    unfold process_result_entry
    split
    · exact dictSet_lookup_other _ _ _ _ hk
    · rfl

/-- In every branch of the per-metric loop body the processed id is erased
from `pending_metric_ids`. -/
theorem metric_calc_step_pending (engine : String → EngineOutcome)
    (reqs : List MetricRequirement) (acc : WorkflowState × Nat × Nat) (mid : String) :
    (metric_calc_step engine reqs acc mid).1.pending_metric_ids
      = acc.1.pending_metric_ids.erase mid := by
  unfold metric_calc_step
  cases reqs.find? (fun m => m.metric_id == mid) with
  | none => rfl
  | some req =>
    cases engine mid with
    | raised => rfl
    | returned rs =>
      simp only
      rw [(foldl_process_result_entry_state mid rs _).1]

/-- The per-metric loop body never touches the planning step. -/
theorem metric_calc_step_planning_step (engine : String → EngineOutcome)
    (reqs : List MetricRequirement) (acc : WorkflowState × Nat × Nat) (mid : String) :
    (metric_calc_step engine reqs acc mid).1.planning_step
      = acc.1.planning_step := by
  unfold metric_calc_step
  cases reqs.find? (fun m => m.metric_id == mid) with
  | none => rfl
  | some req =>
    cases engine mid with
    | raised => rfl
    | returned rs =>
      simp only
      rw [(foldl_process_result_entry_state mid rs _).2]

/-- The per-metric loop body changes computed lookups only at its own id. -/
theorem metric_calc_step_lookup_other (engine : String → EngineOutcome)
    (reqs : List MetricRequirement) (acc : WorkflowState × Nat × Nat) (mid k : String)
    (hk : k ≠ mid) :
    (metric_calc_step engine reqs acc mid).1.computed_metrics.lookup k
      = acc.1.computed_metrics.lookup k := by
  unfold metric_calc_step
  cases reqs.find? (fun m => m.metric_id == mid) with
  | none => rfl
  | some req =>
    cases engine mid with
    | raised => rfl
    | returned rs =>
      simp only
      exact foldl_process_result_entry_lookup_other mid k hk rs _

/-- Over a whole batch, the pending list evolves by erasing each batch id in
order, independently of engine outcomes. -/
theorem foldl_metric_calc_pending (engine : String → EngineOutcome)
    (reqs : List MetricRequirement) (batch : List String) :
    ∀ acc : WorkflowState × Nat × Nat,
      (batch.foldl (metric_calc_step engine reqs) acc).1.pending_metric_ids
        = batch.foldl List.erase acc.1.pending_metric_ids := by
  induction batch with
  | nil => intro acc; rfl
  | cons mid batch ih =>
    intro acc
    simp only [List.foldl_cons]
    rw [ih (metric_calc_step engine reqs acc mid),
      metric_calc_step_pending engine reqs acc mid]

/-- Over a whole batch, the planning step is unchanged. -/
theorem foldl_metric_calc_planning_step (engine : String → EngineOutcome)
    (reqs : List MetricRequirement) (batch : List String) :
    ∀ acc : WorkflowState × Nat × Nat,
      (batch.foldl (metric_calc_step engine reqs) acc).1.planning_step
        = acc.1.planning_step := by
  induction batch with
  | nil => intro acc; rfl
  | cons mid batch ih =>
    intro acc
    simp only [List.foldl_cons]
    rw [ih (metric_calc_step engine reqs acc mid),
      metric_calc_step_planning_step engine reqs acc mid]

/-- Over a whole batch, computed lookups of ids outside the batch are
unchanged. -/
theorem foldl_metric_calc_lookup_other (engine : String → EngineOutcome)
    (reqs : List MetricRequirement) (batch : List String) :
    ∀ (acc : WorkflowState × Nat × Nat) (k : String), k ∉ batch →
      (batch.foldl (metric_calc_step engine reqs) acc).1.computed_metrics.lookup k
        = acc.1.computed_metrics.lookup k := by
  induction batch with
  | nil => intro acc k _; rfl
  | cons mid batch ih =>
    intro acc k hk
    simp only [List.foldl_cons]
    rw [ih (metric_calc_step engine reqs acc mid) k
        (fun h => hk (List.mem_cons_of_mem mid h)),
      metric_calc_step_lookup_other engine reqs acc mid k
        (fun h => hk (h ▸ List.mem_cons_self mid batch))]

/-- The planning node increments the planning step by exactly one. -/
theorem planning_node_planning_step (o : OracleOutcome) (s : WorkflowState) :
    (planning_node o s).planning_step = s.planning_step + 1 := rfl

/-- The outline generator node never touches the planning step. -/
theorem outline_generator_node_planning_step (a : List (Option ReportOutline))
    (s : WorkflowState) :
    (outline_generator_node a s).planning_step = s.planning_step := by
  unfold outline_generator_node
  cases generate_report_outline a with
  | ok o => rfl
  | error e => rfl

/-- The metric evaluator node never touches the planning step. -/
theorem metric_evaluator_node_planning_step (s : WorkflowState) :
    (metric_evaluator_node s).planning_step = s.planning_step := by
  unfold metric_evaluator_node
  cases s.outline_draft with
  | none => rfl
  | some o => rfl

/-- The metric calculator node never touches the planning step. -/
theorem metric_calculator_node_planning_step (engine : String → EngineOutcome)
    (s : WorkflowState) :
    (metric_calculator_node engine s).planning_step = s.planning_step := by
  by_cases h1 : calculator_batch s = []
  · simp [metric_calculator_node, h1]
  · by_cases h2 : s.metrics_requirements = []
    · simp [metric_calculator_node, h1, h2]
    · simp only [metric_calculator_node, h1, h2, if_false, if_neg]
      exact foldl_metric_calc_planning_step engine s.metrics_requirements
        (calculator_batch s) (s, 0, 0)

/-- The report finalizer node never touches the planning step. -/
theorem report_finalizer_node_planning_step (s : WorkflowState) :
    (report_finalizer_node s).planning_step = s.planning_step := by
  unfold report_finalizer_node
  cases s.outline_draft with
  | none => rfl
  | some o => rfl

/-- Above the hard ceiling the rule-variant router returns the langgraph END
sentinel unconditionally. -/
theorem route_from_planning_end (s : WorkflowState) (h : 30 < s.planning_step) :
    route_from_planning s = Route.endRoute := by
  simp [route_from_planning, h]

/-- The `planning_node` fallthrough at line 158 of
complete_agent_flow_rule.py is unreachable: its guards contradict the guard
of the metric-calculator branch. -/
theorem route_from_planning_total (s : WorkflowState) :
    route_from_planning s ≠ Route.planning_node := by
  by_cases h1 : s.planning_step > 30
  · simp [route_from_planning, h1]
  by_cases h2 : s.outline_draft.isNone
  · simp [route_from_planning, h1, h2]
  by_cases h3 : s.metrics_requirements = [] ∧ s.outline_draft.isSome
  · simp [route_from_planning, h1, h2, h3]
  by_cases h4 : s.pending_metric_ids ≠ [] ∧
      coverage_rate s.metrics_requirements.length s.computed_metrics.length < 1.0
  · simp [route_from_planning, h1, h2, h3, h4]
  by_cases h5 : s.pending_metric_ids = [] ∨
      coverage_rate s.metrics_requirements.length s.computed_metrics.length ≥ 0.8
  · simp [route_from_planning, h1, h2, h3, h4, h5]
  · exfalso
    rcases not_or.mp h5 with ⟨hp2, hcov⟩
    rcases not_and_or.mp h4 with hp | hc
    · exact hp (by simpa using hp2)
    · push_neg at hc hcov
      have : (1.0 : ℚ) ≤ 0.8 := le_trans hc (le_of_lt hcov)
      norm_num at this

/-- One full cycle advances the planning step by exactly one, whichever node
the router selects. -/
theorem workflow_cycle_state_planning_step (env : CycleEnv) (s : WorkflowState) :
    (workflow_cycle env s).state.planning_step = s.planning_step + 1 := by
  unfold workflow_cycle
  cases hr : route_from_planning (planning_node env.oracle s) with
  | endRoute => simp [hr, CycleResult.state, planning_node_planning_step]
  | report_finalizer =>
    simp [hr, CycleResult.state, report_finalizer_node_planning_step,
      planning_node_planning_step]
  | outline_generator =>
    simp [hr, CycleResult.state, outline_generator_node_planning_step,
      planning_node_planning_step]
  | metric_evaluator =>
    simp [hr, CycleResult.state, metric_evaluator_node_planning_step,
      planning_node_planning_step]
  | metric_calculator =>
    simp [hr, CycleResult.state, metric_calculator_node_planning_step,
      planning_node_planning_step]
  | planning_node => exact absurd hr (route_from_planning_total _)

/-- A cycle entered at planning step 30 or above halts: the planning node
pushes the step past the ceiling and the router returns END. -/
theorem workflow_cycle_halted_of_step (env : CycleEnv) (s : WorkflowState)
    (h : 30 ≤ s.planning_step) :
    (workflow_cycle env s).isHalted = true := by
  unfold workflow_cycle
  have hend : route_from_planning (planning_node env.oracle s) = Route.endRoute := by
    apply route_from_planning_end
    rw [planning_node_planning_step]
    omega
  simp [hend, CycleResult.isHalted]

/-- If a cycle keeps running, its output state has the planning step of the
input state plus one. -/
theorem workflow_cycle_running_planning_step (env : CycleEnv) (s t : WorkflowState)
    (h : workflow_cycle env s = .running t) :
    t.planning_step = s.planning_step + 1 := by
  have := workflow_cycle_state_planning_step env s
  rw [h] at this
  exact this

/-- Any run long enough to push the planning step past the ceiling halts. -/
theorem workflow_run_halts (n : Nat) :
    ∀ (envs : Nat → CycleEnv) (s : WorkflowState), 1 ≤ n →
      31 ≤ s.planning_step + n → (workflow_run envs n s).isHalted = true := by
  induction n with
  | zero => intro envs s h1 _; omega
  | succ m ih =>
    intro envs s _ hbound
    unfold workflow_run
    by_cases hstep : 30 ≤ s.planning_step
    · have := workflow_cycle_halted_of_step (envs 0) s hstep
      cases hc : workflow_cycle (envs 0) s with
      | halted t => rfl
      | running t => rw [hc] at this; exact absurd this (by simp [CycleResult.isHalted])
    · cases hc : workflow_cycle (envs 0) s with
      | halted t => rfl
      | running t =>
        apply ih (fun i => envs (i + 1)) t
        · omega
        · have := workflow_cycle_running_planning_step (envs 0) s t hc
          omega

/-- The state a run ends in never has a smaller planning step than the state
it started from. -/
theorem workflow_run_planning_step_mono (n : Nat) :
    ∀ (envs : Nat → CycleEnv) (s : WorkflowState),
      s.planning_step ≤ ((workflow_run envs n s).state).planning_step := by
  induction n with
  | zero => intro envs s; exact le_refl _
  | succ m ih =>
    intro envs s
    unfold workflow_run
    cases hc : workflow_cycle (envs 0) s with
    | halted t =>
      have := workflow_cycle_state_planning_step (envs 0) s
      rw [hc] at this
      simp only [CycleResult.state] at this ⊢
      omega
    | running t =>
      have hstep := workflow_cycle_running_planning_step (envs 0) s t hc
      have := ih (fun i => envs (i + 1)) t
      show s.planning_step ≤ ((workflow_run (fun i => envs (i + 1)) m t).state).planning_step
      omega

/-- C1 (counterexample): at planning step 31 the rule-variant router
`_route_from_planning` returns the langgraph END sentinel — not the report
finalizer — so the workflow terminates without reaching the Report
Finalizer; and the graph-variant router does not finalize at step 31 either
(its unconditional ceiling is 50), routing to the outline generator
instead. -/
theorem claim_C1_counterexample :
    route_from_planning c1_state = Route.endRoute ∧
    route_from_planning c1_state ≠ Route.report_finalizer ∧
    graph_route_from_planning c1_state = "outline_generator" ∧
    graph_route_from_planning c1_state ≠ "report_compiler" := by
  refine ⟨by decide, by decide, ?_, ?_⟩ <;> decide

/-- C1 (amended): once `planning_step` exceeds the hard ceiling of 30 the
rule-variant router returns the langgraph END sentinel unconditionally, so
regardless of Decision Oracle responses every workflow run halts within
ceiling + 1 = 31 Planning Controller invocations — but it terminates at END
rather than through the Report Finalizer; the graph-variant router instead
forces `report_compiler` unconditionally only above its ceiling of 50. -/
theorem claim_C1_circuit_breaker_bounded_termination :
    (∀ s : WorkflowState, 30 < s.planning_step →
        route_from_planning s = Route.endRoute) ∧
    (∀ (envs : Nat → CycleEnv) (s : WorkflowState),
        (workflow_run envs 31 s).isHalted = true) ∧
    (∀ s : WorkflowState, 50 < s.planning_step →
        graph_route_from_planning s = "report_compiler") :=
  ⟨fun s h => route_from_planning_end s h,
    fun envs s => workflow_run_halts 31 envs s (by omega) (by omega),
    fun s h => by simp [graph_route_from_planning, h]⟩

/-- Witness for C1 at planning step 31 (rule variant) and 51 (graph
variant). -/
theorem claim_C1_witness :
    route_from_planning c1_state = Route.endRoute ∧
    graph_route_from_planning { c1_state with planning_step := 51 } = "report_compiler" :=
  ⟨claim_C1_circuit_breaker_bounded_termination.1 c1_state (by decide),
    claim_C1_circuit_breaker_bounded_termination.2.2
      { c1_state with planning_step := 51 } (by decide)⟩

/-- C3: every Planning Controller execution — whichever decision branch is
taken, including the fallback branch taken when the Decision Oracle call
raises — returns a state whose `planning_step` is the input value plus
exactly 1 (the increment lives in `update_state_with_planning_decision`),
and `planning_step` never decreases across a run of the workflow. -/
theorem claim_C3_planning_step_increment :
    (∀ (s : WorkflowState) (d : PlanningUpdate),
        (update_state_with_planning_decision s d).planning_step = s.planning_step + 1) ∧
    (∀ (o : OracleOutcome) (s : WorkflowState),
        (planning_node o s).planning_step = s.planning_step + 1) ∧
    (∀ (envs : Nat → CycleEnv) (n : Nat) (s : WorkflowState),
        s.planning_step ≤ ((workflow_run envs n s).state).planning_step) :=
  ⟨fun _ _ => rfl, planning_node_planning_step,
    fun envs n s => workflow_run_planning_step_mono n envs s⟩

/-- In the main branch the calculator node erases each batch id in order
from the pending list. -/
theorem metric_calculator_node_pending (engine : String → EngineOutcome)
    (s : WorkflowState) (h1 : calculator_batch s ≠ []) (h2 : s.metrics_requirements ≠ []) :
    (metric_calculator_node engine s).pending_metric_ids
      = (calculator_batch s).foldl List.erase s.pending_metric_ids := by
  simp only [metric_calculator_node, h1, h2, if_false, ite_false, ne_eq,
    not_false_eq_true, if_neg]
  exact foldl_metric_calc_pending engine s.metrics_requirements (calculator_batch s) (s, 0, 0)

/-- C2 (counterexample): two concrete calculator invocations after which a
batch metric id is still pending.  In the first, the state carries a pending
metric but `metrics_requirements` is empty, so the node returns the state
unchanged (complete_agent_flow_rule.py line 357) with "x" still pending.  In
the second, "x" occurs twice in `pending_metric_ids` while the explicit
batch lists it once: the single `list.remove` drops one occurrence and "x"
is still pending on return. -/
theorem claim_C2_counterexample :
    ("x" ∈ calculator_batch c2_state_a ∧
      "x" ∈ (metric_calculator_node engine_fail c2_state_a).pending_metric_ids) ∧
    ("x" ∈ calculator_batch c2_state_b ∧
      "x" ∈ (metric_calculator_node engine_ok c2_state_b).pending_metric_ids) := by
  refine ⟨⟨?_, ?_⟩, ?_, ?_⟩ <;> decide

/-- C2 (amended): provided `metrics_requirements` is non-empty and the
pending list holds no duplicate ids, every metric id of the input batch —
the explicit `current_batch_metrics` if non-empty, otherwise the entire
`pending_metric_ids` — is absent from `pending_metric_ids` in the returned
state, whether its computation succeeded, failed, raised, or had no matching
MetricRequirement. -/
theorem claim_C2_forward_progress :
    ∀ (engine : String → EngineOutcome) (s : WorkflowState) (mid : String),
      s.metrics_requirements ≠ [] → s.pending_metric_ids.Nodup →
      mid ∈ calculator_batch s →
      mid ∉ (metric_calculator_node engine s).pending_metric_ids := by
  intro engine s mid hreq hnodup hmem
  have hbatch : calculator_batch s ≠ [] := by
    intro h
    rw [h] at hmem
    simp at hmem
  rw [metric_calculator_node_pending engine s hbatch hreq]
  exact not_mem_foldl_erase (calculator_batch s) s.pending_metric_ids hnodup mid hmem

/-- Witness for C2: a successfully computed metric leaves the pending set. -/
theorem claim_C2_witness :
    "x" ∉ (metric_calculator_node engine_ok c2w_state).pending_metric_ids :=
  claim_C2_forward_progress engine_ok c2w_state "x" (by decide) (by decide) (by decide)

/-- With the circuit breaker inactive, an outline present and requirements
non-empty, the rule-variant router reduces to its coverage branch. -/
theorem route_from_planning_coverage_shape (s : WorkflowState)
    (h30 : ¬ s.planning_step > 30) (hnone : s.outline_draft.isNone = false)
    (hreq : s.metrics_requirements ≠ []) :
    route_from_planning s =
      (if s.pending_metric_ids ≠ [] ∧
          coverage_rate s.metrics_requirements.length s.computed_metrics.length < 1.0
        then Route.metric_calculator
        else if s.pending_metric_ids = [] ∨
            coverage_rate s.metrics_requirements.length s.computed_metrics.length ≥ 0.8
          then Route.report_finalizer
          else Route.planning_node) := by
  rw [route_from_planning]
  rw [if_neg h30, if_neg (by simp [hnone]), if_neg (fun h => hreq h.1)]

/-- Below the ceiling, with an outline and requirements present, the
rule-variant router selects the metric calculator exactly when some metric
is pending and coverage is below 1.0 (complete_agent_flow_rule.py line
148). -/
theorem route_metric_calculator_iff (s : WorkflowState)
    (h30 : s.planning_step ≤ 30) (ho : s.outline_draft.isSome = true)
    (hreq : s.metrics_requirements ≠ []) :
    route_from_planning s = Route.metric_calculator ↔
      (s.pending_metric_ids ≠ [] ∧
        coverage_rate s.metrics_requirements.length s.computed_metrics.length < 1.0) := by
  have hnot30 : ¬ s.planning_step > 30 := by omega
  have hnone : s.outline_draft.isNone = false := by
    cases hval : s.outline_draft with
    | none => rw [hval] at ho; simp at ho
    | some o => rfl
  rw [route_from_planning_coverage_shape s hnot30 hnone hreq]
  by_cases h4 : s.pending_metric_ids ≠ [] ∧
      coverage_rate s.metrics_requirements.length s.computed_metrics.length < 1.0
  · rw [if_pos h4]
    simp [h4]
  · rw [if_neg h4]
    by_cases h5 : s.pending_metric_ids = [] ∨
        coverage_rate s.metrics_requirements.length s.computed_metrics.length ≥ 0.8
    · rw [if_pos h5]
      simp [h4]
    · rw [if_neg h5]
      simp [h4]

/-- With its circuit breakers inactive, an outline present and requirements
non-empty, the graph-variant router reduces to its coverage branch. -/
theorem graph_route_coverage_shape (s : WorkflowState)
    (h50 : ¬ s.planning_step > 50) (hnone : s.outline_draft.isNone = false)
    (hreq : s.metrics_requirements ≠ [])
    (hsec : ¬ (s.planning_step > 30 ∧
      coverage_rate s.metrics_requirements.length s.computed_metrics.length > 0.5)) :
    graph_route_from_planning s =
      (if coverage_rate s.metrics_requirements.length s.computed_metrics.length < 0.8
        then "metrics_calculator" else "report_compiler") := by
  rw [graph_route_from_planning]
  rw [if_neg h50, if_neg (by simp [hnone]), if_neg hreq, if_neg hsec]

/-- Below its ceilings, with outline and requirements present, the
graph-variant router selects the metrics calculator exactly when coverage is
strictly below 0.8, regardless of the pending set, and routes to the report
compiler at coverage exactly 0.8 (other_agents/graph.py lines 92-99). -/
theorem graph_route_calculator_iff (s : WorkflowState)
    (h50 : s.planning_step ≤ 50) (ho : s.outline_draft.isSome = true)
    (hreq : s.metrics_requirements ≠ [])
    (hsec : ¬ (s.planning_step > 30 ∧
      coverage_rate s.metrics_requirements.length s.computed_metrics.length > 0.5)) :
    (graph_route_from_planning s = "metrics_calculator" ↔
        coverage_rate s.metrics_requirements.length s.computed_metrics.length < 0.8) ∧
      (coverage_rate s.metrics_requirements.length s.computed_metrics.length = 0.8 →
        graph_route_from_planning s = "report_compiler") := by
  have hnot50 : ¬ s.planning_step > 50 := by omega
  have hnone : s.outline_draft.isNone = false := by
    cases hval : s.outline_draft with
    | none => rw [hval] at ho; simp at ho
    | some o => rfl
  rw [graph_route_coverage_shape s hnot50 hnone hreq hsec]
  constructor
  · by_cases hcov : coverage_rate s.metrics_requirements.length s.computed_metrics.length
        < 0.8
    · rw [if_pos hcov]
      simp [hcov]
    · rw [if_neg hcov]
      simp [hcov]
  · intro hcov
    rw [if_neg (by rw [hcov]; exact lt_irrefl _)]

/-- Coverage of the scenario-E state is exactly 0.8. -/
theorem c5_state_coverage :
    coverage_rate c5_state.metrics_requirements.length c5_state.computed_metrics.length
      = 0.8 := by
  have h1 : c5_state.metrics_requirements.length = 5 := by decide
  have h2 : c5_state.computed_metrics.length = 4 := by decide
  rw [h1, h2]
  norm_num [coverage_rate]

/-- Coverage of the empty-pending state is 0. -/
theorem c5g_state_coverage :
    coverage_rate c5g_state.metrics_requirements.length c5g_state.computed_metrics.length
      = 0 := by
  have h1 : c5g_state.metrics_requirements.length = 5 := by decide
  have h2 : c5g_state.computed_metrics.length = 0 := by decide
  rw [h1, h2]
  norm_num [coverage_rate]

/-- C5 (counterexample): in the rule-variant router, a state whose coverage
is exactly 0.8 with a valid pending metric remaining routes to the metric
calculator, not the report finalizer (the guard at
complete_agent_flow_rule.py line 148 compares against 1.0, not 0.8); and
the graph-variant router returns the metrics calculator even when the
pending set is empty, since its guard ignores the pending set. -/
theorem claim_C5_counterexample :
    (coverage_rate c5_state.metrics_requirements.length c5_state.computed_metrics.length
        = 0.8 ∧
      c5_state.pending_metric_ids ≠ [] ∧
      route_from_planning c5_state = Route.metric_calculator ∧
      route_from_planning c5_state ≠ Route.report_finalizer) ∧
    (c5g_state.pending_metric_ids = [] ∧
      graph_route_from_planning c5g_state = "metrics_calculator") := by
  have hroute : route_from_planning c5_state = Route.metric_calculator := by
    rw [route_metric_calculator_iff c5_state (by decide) (by decide) (by decide)]
    refine ⟨by decide, ?_⟩
    rw [c5_state_coverage]
    norm_num
  have hgraph : graph_route_from_planning c5g_state = "metrics_calculator" := by
    have hshape := graph_route_coverage_shape c5g_state (by decide)
      (by decide) (by decide) ?side
    · rw [hshape, if_pos (by rw [c5g_state_coverage]; norm_num)]
    · rw [c5g_state_coverage]
      intro hcontra
      have := hcontra.2
      norm_num at this
  refine ⟨⟨c5_state_coverage, by decide, hroute, ?_⟩, by decide, hgraph⟩
  rw [hroute]
  decide

/-- C5 (amended): in the rule-variant router the metric calculator is
selected exactly when the pending set is non-empty and coverage is strictly
below 1.0 — so at coverage exactly 0.8 with pending metrics remaining it
still returns the metric calculator; in the graph-variant router the
metrics calculator is selected exactly when coverage is strictly below the
0.8 threshold, regardless of the pending set, and coverage exactly 0.8
routes to the report compiler. -/
theorem claim_C5_coverage_threshold :
    (∀ s : WorkflowState, s.planning_step ≤ 30 → s.outline_draft.isSome = true →
        s.metrics_requirements ≠ [] →
        (route_from_planning s = Route.metric_calculator ↔
          (s.pending_metric_ids ≠ [] ∧
            coverage_rate s.metrics_requirements.length s.computed_metrics.length
              < 1.0))) ∧
    (∀ s : WorkflowState, s.planning_step ≤ 50 → s.outline_draft.isSome = true →
        s.metrics_requirements ≠ [] →
        ¬ (s.planning_step > 30 ∧
          coverage_rate s.metrics_requirements.length s.computed_metrics.length > 0.5) →
        ((graph_route_from_planning s = "metrics_calculator" ↔
            coverage_rate s.metrics_requirements.length s.computed_metrics.length < 0.8) ∧
          (coverage_rate s.metrics_requirements.length s.computed_metrics.length = 0.8 →
            graph_route_from_planning s = "report_compiler"))) :=
  ⟨route_metric_calculator_iff, graph_route_calculator_iff⟩

/-- Witness for C5 at the scenario-E state: the router equivalence holds and
yields the metric calculator there. -/
theorem claim_C5_witness :
    route_from_planning c5_state = Route.metric_calculator ↔
      (c5_state.pending_metric_ids ≠ [] ∧
        coverage_rate c5_state.metrics_requirements.length
          c5_state.computed_metrics.length < 1.0) :=
  claim_C5_coverage_threshold.1 c5_state (by decide) (by decide) (by decide)

/-- The planning node never changes `computed_metrics`. -/
theorem planning_node_computed (o : OracleOutcome) (s : WorkflowState) :
    (planning_node o s).computed_metrics = s.computed_metrics := rfl

/-- The planning node adopts a non-empty decision batch as the new pending
list and otherwise keeps the previous pending list
(workflow_state.py lines 296-297). -/
theorem planning_node_pending (o : OracleOutcome) (s : WorkflowState) :
    (planning_node o s).pending_metric_ids =
      if (plan_next_action o s).metrics_to_compute ≠ []
        then (plan_next_action o s).metrics_to_compute
        else s.pending_metric_ids := rfl

/-- In the main branch the calculator node leaves computed lookups of ids
outside the batch unchanged. -/
theorem metric_calculator_node_lookup_other (engine : String → EngineOutcome)
    (s : WorkflowState) (k : String) (h1 : calculator_batch s ≠ [])
    (h2 : s.metrics_requirements ≠ []) (hk : k ∉ calculator_batch s) :
    (metric_calculator_node engine s).computed_metrics.lookup k
      = s.computed_metrics.lookup k := by
  simp only [metric_calculator_node, h1, h2, if_false, ite_false, ne_eq,
    not_false_eq_true, if_neg]
  exact foldl_metric_calc_lookup_other engine s.metrics_requirements
    (calculator_batch s) (s, 0, 0) k hk

/-- C6 (counterexample): a Planning Controller execution that adopts a
Decision-Oracle-supplied batch naming an already computed metric puts that
metric back into `pending_metric_ids` while it stays a key of
`computed_metrics` — the intersection is non-empty after the transition. -/
theorem claim_C6_counterexample :
    "a" ∈ (planning_node c6_oracle c6_state).pending_metric_ids ∧
    (planning_node c6_oracle c6_state).computed_metrics.lookup "a" = some okEntry := by
  refine ⟨?_, ?_⟩ <;> decide

/-- C6 (amended): the empty intersection of `pending_metric_ids` with the
keys of `computed_metrics` is established by the Metric Evaluator, preserved
by the Metric Calculator on duplicate-free pending lists, and preserved by
any Planning Controller execution whose adopted batch is disjoint from the
computed keys — but a Planning Controller execution that adopts an
oracle-supplied batch naming a computed metric violates it
(`update_state_with_planning_decision` copies the batch verbatim). -/
theorem claim_C6_pending_computed_disjoint :
    (∀ (s : WorkflowState) (o : ReportOutline), s.outline_draft = some o →
        ∀ k, k ∈ (metric_evaluator_node s).pending_metric_ids →
          (metric_evaluator_node s).computed_metrics.lookup k = none) ∧
    (∀ (engine : String → EngineOutcome) (s : WorkflowState),
        s.pending_metric_ids.Nodup →
        (∀ k, k ∈ s.pending_metric_ids → s.computed_metrics.lookup k = none) →
        ∀ k, k ∈ (metric_calculator_node engine s).pending_metric_ids →
          (metric_calculator_node engine s).computed_metrics.lookup k = none) ∧
    (∀ (o : OracleOutcome) (s : WorkflowState),
        (∀ k, k ∈ (plan_next_action o s).metrics_to_compute →
          s.computed_metrics.lookup k = none) →
        (∀ k, k ∈ s.pending_metric_ids → s.computed_metrics.lookup k = none) →
        ∀ k, k ∈ (planning_node o s).pending_metric_ids →
          (planning_node o s).computed_metrics.lookup k = none) := by
  refine ⟨?_, ?_, ?_⟩
  · intro s o hso k hk
    unfold metric_evaluator_node
    rw [hso]
    rfl
  · intro engine s hnodup hdisj k hk
    by_cases h1 : calculator_batch s = []
    · have hnode : metric_calculator_node engine s = s := by
        simp [metric_calculator_node, h1]
      rw [hnode] at hk ⊢
      exact hdisj k hk
    · by_cases h2 : s.metrics_requirements = []
      · have hnode : metric_calculator_node engine s = s := by
          simp [metric_calculator_node, h1, h2]
        rw [hnode] at hk ⊢
        exact hdisj k hk
      · have hpend := metric_calculator_node_pending engine s h1 h2
        rw [hpend] at hk
        have hkp : k ∈ s.pending_metric_ids := mem_of_mem_foldl_erase _ _ _ hk
        have hknb : k ∉ calculator_batch s := by
          intro hkb
          exact not_mem_foldl_erase (calculator_batch s) s.pending_metric_ids
            hnodup k hkb hk
        rw [metric_calculator_node_lookup_other engine s k h1 h2 hknb]
        exact hdisj k hkp
  · intro o s hbatch hdisj k hk
    rw [planning_node_computed]
    rw [planning_node_pending] at hk
    by_cases hmtc : (plan_next_action o s).metrics_to_compute ≠ []
    · rw [if_pos hmtc] at hk
      exact hbatch k hk
    · rw [if_neg hmtc] at hk
      exact hdisj k hk

/-- Witness for C6: after a calculator invocation computing "x" from an
explicit batch, the remaining pending metric "y" is not a computed key. -/
theorem claim_C6_witness :
    (metric_calculator_node engine_ok c6w_state).computed_metrics.lookup "y" = none :=
  claim_C6_pending_computed_disjoint.2.1 engine_ok c6w_state (by decide)
    (by decide) "y" (by decide)

/-- C7: a metric whose failure count has reached `max_retry` stays in the
pending list computed by the status builder but is excluded from its
valid-pending subset, and therefore never appears in the
`metrics_to_compute` batch of the deterministic fallback decision. -/
theorem claim_C7_retry_cap_exclusion :
    ∀ (s : WorkflowState) (mid : String),
      (∃ m ∈ s.metrics_requirements, m.metric_id = mid) →
      s.computed_metrics.lookup mid = none →
      max_retry ≤ dictGetNat s.failed_metric_attempts mid →
      mid ∈ (analyze_current_state s).pending_ids ∧
      mid ∉ (analyze_current_state s).valid_pending_ids ∧
      mid ∉ (plan_fallback_decision s).metrics_to_compute := by
  intro s mid hex hcomp hfail
  have hpend : mid ∈ (analyze_current_state s).pending_ids := by
    rcases hex with ⟨m, hm, hmid⟩
    simp only [analyze_current_state]
    refine List.mem_map.mpr ⟨m, ?_, hmid⟩
    refine List.mem_filter.mpr ⟨hm, ?_⟩
    rw [hmid, hcomp]
    rfl
  have hvalid : mid ∉ (analyze_current_state s).valid_pending_ids := by
    intro hmem
    simp only [analyze_current_state] at hmem
    rcases List.mem_map.mp hmem with ⟨m, hmf, hmid⟩
    have hlt := (List.mem_filter.mp hmf).2
    rw [hmid] at hlt
    simp only [decide_eq_true_eq] at hlt
    omega
  refine ⟨hpend, hvalid, ?_⟩
  intro hmem
  apply hvalid
  simp only [plan_fallback_decision] at hmem
  by_cases h1 : ¬ (analyze_current_state s).has_outline = true
  · rw [if_pos h1] at hmem
    simp at hmem
  · rw [if_neg h1] at hmem
    by_cases h2 : (analyze_current_state s).coverage < 0.8 ∧
        (analyze_current_state s).valid_pending_metrics ≠ []
    · rw [if_pos h2] at hmem
      exact List.mem_of_mem_take hmem
    · rw [if_neg h2] at hmem
      by_cases h3 : (analyze_current_state s).valid_pending_ids ≠ []
      · rw [if_pos h3] at hmem
        simp at hmem
      · rw [if_neg h3] at hmem
        simp at hmem

/-- Witness for C7 at a state whose metric "m" has failed three times. -/
theorem claim_C7_witness :
    "m" ∈ (analyze_current_state c7_state).pending_ids ∧
    "m" ∉ (analyze_current_state c7_state).valid_pending_ids ∧
    "m" ∉ (plan_fallback_decision c7_state).metrics_to_compute :=
  claim_C7_retry_cap_exclusion c7_state "m" (by decide) (by decide) (by decide)

/-- C8: after all outline attempts fail, the default-outline fallback of
`generate_report_outline` raises `NameError` at its first statement
(outline_agent.py line 947 references `self` in a module-level function), so
the outline generator node catches an exception instead of installing the
synthesized default outline: `outline_draft` stays absent and
`outline_version` stays 0, where the spec demands a one-section default
outline and `outline_version == 1`. -/
theorem claim_C8_default_outline_unreachable :
    generate_report_outline [none, none, none] =
      Except.error "NameError: name self is not defined" ∧
    (outline_generator_node [none, none, none]
        create_initial_integrated_state).outline_version = 0 ∧
    (outline_generator_node [none, none, none]
        create_initial_integrated_state).outline_draft = none ∧
    (outline_generator_node [none, none, none]
        create_initial_integrated_state).errors ≠ [] := by
  refine ⟨rfl, ?_, ?_, ?_⟩ <;> decide

/-- The report finalizer installs a report whose sections are the outline
sections rendered by `build_section_content`. -/
theorem report_finalizer_node_report_draft (s : WorkflowState) (o : ReportOutline)
    (hso : s.outline_draft = some o) :
    ∃ r : FinalReport, (report_finalizer_node s).report_draft = some r ∧
      r.sections = o.sections.map (build_section_content s.computed_metrics) := by
  unfold report_finalizer_node
  rw [hso]
  exact ⟨_, rfl, rfl⟩

/-- C9: in the final report every section maps each metric id of its
`metrics_needed` to the computed result when `computed_metrics` has that
key, and to the literal missing-data sentinel otherwise — dangling
references render as missing instead of failing.  The second conjunct states
the same for the `compile_final_report` variant of other_agents/graph.py. -/
theorem claim_C9_data_missing_sentinel :
    (∀ (s : WorkflowState) (o : ReportOutline) (sec : ReportSection) (mid : String),
      s.outline_draft = some o → sec ∈ o.sections → mid ∈ sec.metrics_needed →
      ∃ r : FinalReport,
        (report_finalizer_node s).report_draft = some r ∧
        build_section_content s.computed_metrics sec ∈ r.sections ∧
        (build_section_content s.computed_metrics sec).metrics.lookup mid =
          some (match s.computed_metrics.lookup mid with
                | some e => SectionMetricValue.result e
                | none => SectionMetricValue.text data_missing_sentinel)) ∧
    (∀ (computed : List (String × EngineEntry)) (sec : ReportSection) (mid : String),
      mid ∈ sec.metrics_needed →
      (graph_section_metrics computed sec).lookup mid =
        some (match computed.lookup mid with
              | some e => SectionMetricValue.result e
              | none => SectionMetricValue.text data_missing_sentinel)) := by
  constructor
  · intro s o sec mid hso hsec hmid
    obtain ⟨r, hr, hsections⟩ := report_finalizer_node_report_draft s o hso
    refine ⟨r, hr, ?_, ?_⟩
    · rw [hsections]
      exact List.mem_map_of_mem _ hsec
    · simp only [build_section_content]
      exact foldl_dictSet_lookup_mem (section_metric_value s.computed_metrics)
        sec.metrics_needed [] mid hmid
  · intro computed sec mid hmid
    simp only [graph_section_metrics]
    exact foldl_dictSet_lookup_mem _ sec.metrics_needed [] mid hmid

/-- Witness for C9: the dangling id "absent" of the concrete outline renders
as the missing-data sentinel. -/
theorem claim_C9_witness :
    (graph_section_metrics c9_state.computed_metrics c9_sec).lookup "absent" =
      some (SectionMetricValue.text data_missing_sentinel) :=
  claim_C9_data_missing_sentinel.2 c9_state.computed_metrics c9_sec "absent" (by decide)

/-- The result-entry fold never touches `failed_metric_attempts`. -/
theorem foldl_process_result_entry_failed (mid : String) (rs : List EngineEntry) :
    ∀ acc : WorkflowState × Nat × Nat,
      (rs.foldl (process_result_entry mid) acc).1.failed_metric_attempts
        = acc.1.failed_metric_attempts := by
  induction rs with
  | nil => intro acc; rfl
  | cons e rs ih =>
    intro acc
    simp only [List.foldl_cons]
    rw [ih (process_result_entry mid acc e)]
    unfold process_result_entry
    split <;> rfl

/-- The per-metric loop body never touches `failed_metric_attempts`: no
branch of the calculator increments the retry ledger. -/
theorem metric_calc_step_failed (engine : String → EngineOutcome)
    (reqs : List MetricRequirement) (acc : WorkflowState × Nat × Nat) (mid : String) :
    (metric_calc_step engine reqs acc mid).1.failed_metric_attempts
      = acc.1.failed_metric_attempts := by
  unfold metric_calc_step
  cases reqs.find? (fun m => m.metric_id == mid) with
  | none => rfl
  | some req =>
    cases engine mid with
    | raised => rfl
    | returned rs =>
      simp only
      rw [foldl_process_result_entry_failed mid rs _]

/-- Over a whole batch, `failed_metric_attempts` is unchanged. -/
theorem foldl_metric_calc_failed (engine : String → EngineOutcome)
    (reqs : List MetricRequirement) (batch : List String) :
    ∀ acc : WorkflowState × Nat × Nat,
      (batch.foldl (metric_calc_step engine reqs) acc).1.failed_metric_attempts
        = acc.1.failed_metric_attempts := by
  induction batch with
  | nil => intro acc; rfl
  | cons mid batch ih =>
    intro acc
    simp only [List.foldl_cons]
    rw [ih (metric_calc_step engine reqs acc mid),
      metric_calc_step_failed engine reqs acc mid]

/-- The metric calculator node never writes `failed_metric_attempts`. -/
theorem metric_calculator_node_failed (engine : String → EngineOutcome)
    (s : WorkflowState) :
    (metric_calculator_node engine s).failed_metric_attempts
      = s.failed_metric_attempts := by
  by_cases h1 : calculator_batch s = []
  · simp [metric_calculator_node, h1]
  · by_cases h2 : s.metrics_requirements = []
    · simp [metric_calculator_node, h1, h2]
    · simp only [metric_calculator_node, h1, h2, if_false, ite_false, ne_eq,
        not_false_eq_true, if_neg]
      exact foldl_metric_calc_failed engine s.metrics_requirements
        (calculator_batch s) (s, 0, 0)

/-- No workflow node ever writes `failed_metric_attempts`. -/
theorem workflow_cycle_failed (env : CycleEnv) (s : WorkflowState) :
    (workflow_cycle env s).state.failed_metric_attempts
      = s.failed_metric_attempts := by
  have hplan : (planning_node env.oracle s).failed_metric_attempts
      = s.failed_metric_attempts := rfl
  unfold workflow_cycle
  cases hr : route_from_planning (planning_node env.oracle s) with
  | endRoute => simpa [hr, CycleResult.state] using hplan
  | report_finalizer =>
    have hfin : ∀ t : WorkflowState,
        (report_finalizer_node t).failed_metric_attempts = t.failed_metric_attempts := by
      intro t
      unfold report_finalizer_node
      cases t.outline_draft <;> rfl
    simp only [hr, CycleResult.state]
    rw [hfin, hplan]
  | outline_generator =>
    have hout : ∀ t : WorkflowState,
        (outline_generator_node env.outline_attempts t).failed_metric_attempts
          = t.failed_metric_attempts := by
      intro t
      unfold outline_generator_node
      cases generate_report_outline env.outline_attempts <;> rfl
    simp only [hr, CycleResult.state]
    rw [hout, hplan]
  | metric_evaluator =>
    have heva : ∀ t : WorkflowState,
        (metric_evaluator_node t).failed_metric_attempts = t.failed_metric_attempts := by
      intro t
      unfold metric_evaluator_node
      cases t.outline_draft <;> rfl
    simp only [hr, CycleResult.state]
    rw [heva, hplan]
  | metric_calculator =>
    simp only [hr, CycleResult.state]
    rw [metric_calculator_node_failed, hplan]
  | planning_node => exact absurd hr (route_from_planning_total _)

/-- Across any run, `failed_metric_attempts` keeps its initial value. -/
theorem workflow_run_failed (n : Nat) :
    ∀ (envs : Nat → CycleEnv) (s : WorkflowState),
      ((workflow_run envs n s).state).failed_metric_attempts
        = s.failed_metric_attempts := by
  induction n with
  | zero => intro envs s; rfl
  | succ m ih =>
    intro envs s
    unfold workflow_run
    cases hc : workflow_cycle (envs 0) s with
    | halted t =>
      have := workflow_cycle_failed (envs 0) s
      rw [hc] at this
      exact this
    | running t =>
      have hcyc := workflow_cycle_failed (envs 0) s
      rw [hc] at hcyc
      show ((workflow_run (fun i => envs (i + 1)) m t).state).failed_metric_attempts
        = s.failed_metric_attempts
      rw [ih (fun i => envs (i + 1)) t]
      exact hcyc

/-- C4: the code never increments `failed_metric_attempts` — the field is
initialised to the empty dict (workflow_state.py line 176), read by the
planning filters, but written by no node.  A metric whose Knowledge Engine
call fails is only counted in `failed_calculations` and removed from
pending; across the three-cycle scenario-C run with an always-failing
engine, `failed_metric_attempts["total_expense"]` is still 0, not 3.  The
concrete invocation also records `total_configs = 0`: line 440 measures the
aliased pending list after the loop emptied it. -/
theorem claim_C4_failed_attempts_never_incremented :
    (∀ (engine : String → EngineOutcome) (s : WorkflowState),
        (metric_calculator_node engine s).failed_metric_attempts
          = s.failed_metric_attempts) ∧
    (∀ (envs : Nat → CycleEnv) (n : Nat) (s : WorkflowState),
        ((workflow_run envs n s).state).failed_metric_attempts
          = s.failed_metric_attempts) ∧
    ((metric_calculator_node engine_fail c4_state).failed_metric_attempts = [] ∧
      (metric_calculator_node engine_fail c4_state).pending_metric_ids = [] ∧
      (metric_calculator_node engine_fail c4_state).calculation_results =
        some { total_configs := 0, successful_calculations := 0,
               failed_calculations := 1 }) ∧
    dictGetNat ((workflow_run (fun _ => c4_env) 3 c4_state).state).failed_metric_attempts
      "total_expense" = 0 := by
  refine ⟨metric_calculator_node_failed,
    fun envs n s => workflow_run_failed n envs s, ⟨?_, ?_, ?_⟩, ?_⟩
  · decide
  · decide
  · decide
  · rw [workflow_run_failed 3 (fun _ => c4_env) c4_state]
    decide
